import Mathlib

/-!
# ritmo_jogo: the game state machine of `blink.c`

A shallow embedding of the firmware's globals and of the functions that act
on them.  The C globals become the fields of `State`; the hardware the code
talks to (the microsecond timer, the pool of one-shot alarms, the GPIO
interrupt enable of the joystick button and the stream of commands sent to
the LED, the OLED, the LED matrix and the PWM) is carried in the same record,
so that every C function becomes a function `State → State`.

Machine integers are natural numbers with the truncation written out:
`uint8_t` values are reduced modulo 256, `uint16_t` modulo 65536, `uint32_t`
modulo 2^32 and `uint64_t` modulo 2^64.  Expressions the C code evaluates in
`int` are evaluated in `Int` (with `Int.tdiv`, the truncating division of C).
-/

namespace Blink

/-! ## Constants (`#define`s and `const`s of `blink.c`) -/

def LED_MATRIX_PIN : Nat := 7
def BUZZER1 : Nat := 10
def BUZZER2 : Nat := 21
def BUTTON_A : Nat := 5
def BUTTON_B : Nat := 6
def JOYSTICK_BTN : Nat := 22
def LED_R : Nat := 13
def LED_G : Nat := 11
def LED_B : Nat := 12
def WIDTH : Nat := 128
def HEIGHT : Nat := 64
def DEBOUNCE_DELAY_MS : Nat := 100

/-- The SDK's event bit for a falling edge (`GPIO_IRQ_EDGE_FALL`, value `0x4`
in `hardware/gpio.h`); the header is not part of the repository. -/
def GPIO_IRQ_EDGE_FALL : Nat := 4

/-! ## Machine integer conversions -/

/-- Conversion of an `int` value to `uint8_t`. -/
def u8 (n : Int) : Nat := (n % 256).toNat

/-- Conversion of a sample to `uint16_t`. -/
def u16 (n : Nat) : Nat := n % 65536

/-- Subtraction of two `uint64_t` values (wraps around). -/
def sub64 (a b : Nat) : Nat := (a % 2 ^ 64 + 2 ^ 64 - b % 2 ^ 64) % 2 ^ 64

/-! ## Hardware -/

/-- The functions the code hands to `add_alarm_in_ms`. -/
inductive Callback
  | button_a_debounce_callback
  | button_b_debounce_callback
  | joystick_btn_debounce_callback
  | reset_game_callback
  | stop_sound (buzzer : Nat)
  deriving DecidableEq, Repr

/-- A pending one-shot alarm: the time (in microseconds) from which it may
fire and the callback it runs. -/
structure Alarm where
  due_us : Nat
  cb : Callback
  deriving DecidableEq, Repr

/-- Commands issued to the peripherals, in the order the code issues them. -/
inductive HwCmd
  | gpio_put (pin : Nat) (value : Nat)
  | pio_sm_put_blocking (word : Nat)
  | ssd1306_fill (value : Bool)
  | ssd1306_draw_string (str : String) (x y : Nat)
  | ssd1306_draw_char (c : Char) (x y : Nat)
  | ssd1306_pixel (x y : Int) (value : Bool)
  | ssd1306_send_data
  | pwm_set_wrap (buzzer : Nat) (wrap : Nat)
  | pwm_set_chan_level (buzzer : Nat) (level : Nat)
  | pwm_set_enabled (buzzer : Nat) (enabled : Bool)
  | add_repeating_timer_ms (ms : Nat)
  | cancel_repeating_timer
  | free
  deriving DecidableEq, Repr

/-! ## State -/

/-- The globals of `blink.c` followed by the hardware state the code reads
and writes.  `blink_timer_ptr` is `true` when the pointer is not `NULL`. -/
structure State where
  cursor_x : Nat
  cursor_y : Nat
  target_x : Nat
  target_y : Nat
  score : Nat
  click_count : Nat
  playing : Bool
  paused : Bool
  game_over : Bool
  victory : Bool
  joystick_last_press_time : Nat
  button_a_pressed : Bool
  button_b_pressed : Bool
  joystick_btn_pressed : Bool
  sound_active : Bool
  led_blink_count : Int
  led_state : Bool
  blink_timer_ptr : Bool
  /-- The hardware microsecond counter read by `time_us_64`. -/
  time_us : Nat
  /-- The one-shot alarms armed and not yet fired. -/
  alarms : List Alarm
  /-- The falling-edge interrupt of the joystick button is enabled. -/
  joystick_irq_enabled : Bool
  /-- The peripheral commands issued so far. -/
  out : List HwCmd
  deriving DecidableEq, Repr

/-- The state after the static initialisers of `blink.c`, before `main`
starts the game timer. -/
def boot : State where
  cursor_x := 64
  cursor_y := 32
  target_x := 64
  target_y := 32
  score := 0
  click_count := 0
  playing := true
  paused := false
  game_over := false
  victory := false
  joystick_last_press_time := 0
  button_a_pressed := false
  button_b_pressed := false
  joystick_btn_pressed := false
  sound_active := false
  led_blink_count := 0
  led_state := false
  blink_timer_ptr := false
  time_us := 0
  alarms := []
  joystick_irq_enabled := true
  out := []

/-! ## Hardware primitives -/

/-- Append peripheral commands to the command stream. -/
def emit (cmds : List HwCmd) (s : State) : State :=
  { s with out := s.out ++ cmds }

/-- `add_alarm_in_ms(ms, cb, _, false)`: a one-shot alarm due `ms`
milliseconds after the current time. -/
def add_alarm_in_ms (ms : Nat) (cb : Callback) (s : State) : State :=
  { s with alarms := s.alarms ++ [{ due_us := s.time_us + ms * 1000, cb := cb }] }

/-- `time_us_64()`. -/
def time_us_64 (s : State) : Nat := s.time_us % 2 ^ 64

/-! ## The functions of `blink.c` -/

/-- `set_rgb_led`. -/
def set_rgb_led (r g b : Nat) (s : State) : State :=
  emit [.gpio_put LED_R r, .gpio_put LED_G g, .gpio_put LED_B b] s

/-- The array `colors` of `update_led_matrix` after its first loop. -/
def matrix_colors (progress : Nat) : List Nat :=
  (List.range 25).map fun i => if i < progress ∧ i < 25 then 0xFF0000 else 0

/-- `update_led_matrix`: 25 words, each `colors[i] << 8u` as a `uint32_t`. -/
def update_led_matrix (progress : Nat) (s : State) : State :=
  emit ((matrix_colors progress).map fun c => .pio_sm_put_blocking ((c <<< 8) % 2 ^ 32)) s

/-- `stop_sound`. -/
def stop_sound (buzzer : Nat) (s : State) : State :=
  { emit [.pwm_set_enabled buzzer false] s with sound_active := false }

/-- `play_sound`. -/
def play_sound (buzzer freq : Nat) (s : State) : State :=
  let wrap := 125000000 / freq
  let s := emit [.pwm_set_wrap buzzer wrap, .pwm_set_chan_level buzzer (wrap / 2),
    .pwm_set_enabled buzzer true] s
  add_alarm_in_ms 200 (.stop_sound buzzer) { s with sound_active := true }

/-- `read_joystick`, on the two samples `adc_read` returns. -/
def read_joystick (x_sample y_sample : Nat) (s : State) : State :=
  let x_val := u16 x_sample
  let y_val := u16 y_sample
  let cx := u8 (Int.tdiv ((x_val : Int) * WIDTH) 4096)
  let cy := u8 (Int.tdiv ((4095 - (y_val : Int)) * HEIGHT) 4096)
  let cx := if cx ≥ WIDTH then WIDTH - 1 else cx
  let cy := if cy ≥ HEIGHT then HEIGHT - 1 else cy
  { s with cursor_x := cx, cursor_y := cy }

/-- The characters `snprintf(buf, 4, "%d", n)` leaves in `buf`. -/
def snprintf4 (n : Nat) : List Char := (Nat.toDigits 10 n).take 3

/-- The `ssd1306_draw_char` loop of `update_display`. -/
def draw_chars (cs : List Char) (x0 y : Nat) : List HwCmd :=
  cs.enum.map fun p => .ssd1306_draw_char p.2 (x0 + 8 * p.1) y

/-- The 3x3 marker loops of `update_display`. -/
def draw_marker (cx cy : Nat) : List HwCmd :=
  ([-1, 0, 1] : List Int).flatMap fun dx =>
    ([-1, 0, 1] : List Int).filterMap fun dy =>
      let x : Int := cx + dx
      let y : Int := cy + dy
      if x ≥ 1 ∧ x < WIDTH - 1 ∧ y ≥ 1 ∧ y < HEIGHT - 1 then
        some (.ssd1306_pixel x y true)
      else none

/-- `update_display`. -/
def update_display (s : State) : State :=
  emit ([.ssd1306_fill false, .ssd1306_draw_string "Score:" 0 0]
    ++ draw_chars (snprintf4 s.score) 48 0
    ++ draw_chars (snprintf4 s.click_count) 0 12
    ++ draw_marker s.cursor_x s.cursor_y
    ++ draw_marker s.target_x s.target_y
    ++ [.ssd1306_send_data]) s

/-- The OLED commands of the victory screen. -/
def victory_screen : List HwCmd :=
  [.ssd1306_fill false, .ssd1306_draw_string "PARABENS!" 20 20,
   .ssd1306_draw_string "Score: 25" 30 35, .ssd1306_draw_string "VOCE COMPLETOU!" 5 50,
   .ssd1306_send_data]

/-- The OLED commands of the defeat screen. -/
def defeat_screen : List HwCmd :=
  [.ssd1306_fill false, .ssd1306_draw_string "GAME OVER!" 20 20,
   .ssd1306_draw_string "Voce perdeu!" 20 35, .ssd1306_send_data]

/-- `maintain_final_screen`. -/
def maintain_final_screen (s : State) : State :=
  if s.victory then emit victory_screen s else emit defeat_screen s

/-- The block `if (blink_timer_ptr) ...` shared by `show_victory_screen`,
`show_game_over_screen` and `reset_game`. -/
def release_blink_timer (s : State) : State :=
  if s.blink_timer_ptr then
    { emit [.cancel_repeating_timer, .free] s with blink_timer_ptr := false }
  else s

/-- The last four statements of both outcome screens: a fresh blink session. -/
def start_blink (s : State) : State :=
  emit [.add_repeating_timer_ms 250]
    { s with led_blink_count := 20, led_state := true, blink_timer_ptr := true }

/-- `show_victory_screen`. -/
def show_victory_screen (s : State) : State :=
  start_blink (release_blink_timer (play_sound BUZZER1 2500
    (emit victory_screen (update_led_matrix 25 s))))

/-- `show_game_over_screen`. -/
def show_game_over_screen (s : State) : State :=
  start_blink (release_blink_timer (play_sound BUZZER2 3000 (emit defeat_screen s)))

/-- `reset_game`; `r1` and `r2` are the results of its two calls of `rand`. -/
def reset_game (r1 r2 : Nat) (s : State) : State :=
  let s := { s with
    score := 0, click_count := 0, game_over := false, victory := false,
    playing := true, paused := false,
    cursor_x := u8 (WIDTH / 2 : Nat), cursor_y := u8 (HEIGHT / 2 : Nat),
    target_x := u8 ((r1 % (WIDTH - 4) + 2 : Nat)),
    target_y := u8 ((r2 % (HEIGHT - 4) + 2 : Nat)) }
  release_blink_timer (set_rgb_led 0 1 0 (update_led_matrix 0 s))

/-- `button_a_debounce_callback`. -/
def button_a_debounce_callback (s : State) : State :=
  { s with button_a_pressed := false, paused := !s.paused }

/-- `button_b_debounce_callback`. -/
def button_b_debounce_callback (r1 r2 : Nat) (s : State) : State :=
  reset_game r1 r2 { s with button_b_pressed := false }

/-- `joystick_btn_debounce_callback`. -/
def joystick_btn_debounce_callback (s : State) : State :=
  { s with joystick_btn_pressed := false, joystick_irq_enabled := true }

/-- `reset_game_callback`. -/
def reset_game_callback (r1 r2 : Nat) (s : State) : State :=
  reset_game r1 r2 s

/-- The test `events & GPIO_IRQ_EDGE_FALL`. -/
def falling (events : Nat) : Bool := events &&& GPIO_IRQ_EDGE_FALL != 0

/-- The joystick branch of `button_handler` accepts the press. -/
def joystick_accepts (s : State) : Bool :=
  sub64 (time_us_64 s) s.joystick_last_press_time > (DEBOUNCE_DELAY_MS * 1000) % 2 ^ 32

/-- `button_handler`. -/
def button_handler (gpio events : Nat) (s : State) : State :=
  let s := if gpio = BUTTON_A ∧ falling events ∧ !s.button_a_pressed then
      add_alarm_in_ms 200 .button_a_debounce_callback { s with button_a_pressed := true }
    else s
  let s := if gpio = BUTTON_B ∧ falling events ∧ !s.button_b_pressed then
      add_alarm_in_ms 200 .button_b_debounce_callback { s with button_b_pressed := true }
    else s
  if gpio = JOYSTICK_BTN ∧ falling events then
    let now := time_us_64 s
    if joystick_accepts s then
      add_alarm_in_ms DEBOUNCE_DELAY_MS .joystick_btn_debounce_callback
        { s with joystick_btn_pressed := true, joystick_last_press_time := now,
                 joystick_irq_enabled := false }
    else s
  else s

/-- The hit test of `game_loop`: `abs(cursor_x - target_x) < 3 &&
abs(cursor_y - target_y) < 3`, evaluated in `int`. -/
def hit (s : State) : Bool :=
  Int.natAbs ((s.cursor_x : Int) - s.target_x) < 3 ∧
  Int.natAbs ((s.cursor_y : Int) - s.target_y) < 3

/-- The block `if (joystick_btn_pressed) ...` of `game_loop`. -/
def handle_confirm (r1 r2 : Nat) (s : State) : State :=
  if s.joystick_btn_pressed then
    let s := { s with click_count := u8 (s.click_count + 1), joystick_btn_pressed := false }
    if hit s then
      let s := { s with score := u8 (s.score + 1) }
      let s := play_sound BUZZER1 2000 s
      let s := { s with target_x := u8 ((r1 % (WIDTH - 4) + 2 : Nat)) }
      let s := { s with target_y := u8 ((r2 % (HEIGHT - 4) + 2 : Nat)) }
      let s := { s with click_count := 0 }
      update_led_matrix s.score s
    else s
  else s

/-- The block `if (click_count > 10) ...` of `game_loop`. -/
def check_defeat (s : State) : State :=
  if s.click_count > 10 then
    add_alarm_in_ms 5000 .reset_game_callback
      (show_game_over_screen { s with game_over := true, victory := false })
  else s

/-- The block `if (score >= 25) ...` of `game_loop`. -/
def check_victory (s : State) : State :=
  if s.score ≥ 25 then
    add_alarm_in_ms 5000 .reset_game_callback
      (show_victory_screen { update_led_matrix 25 s with game_over := true, victory := true })
  else s

/-- `game_loop` (it always returns `true`).  `x_sample` and `y_sample` are
what `adc_read` returns to `read_joystick`, `r1` and `r2` what `rand` returns
on a hit. -/
def game_loop (x_sample y_sample r1 r2 : Nat) (s : State) : State :=
  if s.game_over then maintain_final_screen s
  else if s.playing ∧ !s.paused then
    let s := read_joystick x_sample y_sample s
    let s := handle_confirm r1 r2 s
    let s := check_defeat s
    let s := check_victory s
    set_rgb_led 0 1 0 (update_display s)
  else if s.paused then set_rgb_led 1 1 0 s
  else set_rgb_led 1 0 0 s

/-- `blink_led_callback`, with the value it returns. -/
def blink_led_callback (s : State) : State × Bool :=
  if s.led_blink_count > 0 then
    let v : Nat := if s.led_state then 1 else 0
    let s := if s.victory then set_rgb_led 0 v 0 s else set_rgb_led v 0 0 s
    let s := { s with led_state := !s.led_state }
    let s := if !s.led_state then { s with led_blink_count := s.led_blink_count - 1 } else s
    (s, true)
  else
    ({ emit [.cancel_repeating_timer, .free] s with blink_timer_ptr := false }, false)

/-! ## Descriptions used in the statements -/

/-- The PWM commands of `play_sound`. -/
def sound_cmds (buzzer freq : Nat) : List HwCmd :=
  [.pwm_set_wrap buzzer (125000000 / freq), .pwm_set_chan_level buzzer (125000000 / freq / 2),
   .pwm_set_enabled buzzer true]

/-- The commands of the block `if (blink_timer_ptr) ...`. -/
def release_cmds (ptr : Bool) : List HwCmd :=
  if ptr then [.cancel_repeating_timer, .free] else []

/-- The words `update_led_matrix` pushes. -/
def matrix_cmds (progress : Nat) : List HwCmd :=
  (matrix_colors progress).map fun c => .pio_sm_put_blocking ((c <<< 8) % 2 ^ 32)

/-- The horizontal cursor coordinate `read_joystick` computes. -/
def cursor_x_of (x_sample : Nat) : Nat :=
  if u8 (Int.tdiv ((u16 x_sample : Int) * WIDTH) 4096) ≥ WIDTH then WIDTH - 1
  else u8 (Int.tdiv ((u16 x_sample : Int) * WIDTH) 4096)

/-- The vertical cursor coordinate `read_joystick` computes. -/
def cursor_y_of (y_sample : Nat) : Nat :=
  if u8 (Int.tdiv ((4095 - (u16 y_sample : Int)) * HEIGHT) 4096) ≥ HEIGHT then HEIGHT - 1
  else u8 (Int.tdiv ((4095 - (u16 y_sample : Int)) * HEIGHT) 4096)

/-- The commands of `set_rgb_led r g b`. -/
def rgb_cmds (r g b : Nat) : List HwCmd :=
  [.gpio_put LED_R r, .gpio_put LED_G g, .gpio_put LED_B b]

/-- The screen `maintain_final_screen` draws. -/
def final_screen (victory : Bool) : List HwCmd :=
  if victory then victory_screen else defeat_screen

/-- What one invocation of `game_loop` reads from its environment. -/
structure TickInput where
  x_sample : Nat
  y_sample : Nat
  r1 : Nat
  r2 : Nat
  deriving DecidableEq, Repr

/-- Consecutive invocations of `game_loop`, one per input. -/
def ticks (inps : List TickInput) (s : State) : State :=
  inps.foldl (fun s i => game_loop i.x_sample i.y_sample i.r1 i.r2 s) s

/-- The commands `blink_led_callback` sends to the status LED: the outcome
colour (green after a victory, red after a defeat) when `lit`, black otherwise. -/
def led_cmds (victory lit : Bool) : List HwCmd :=
  if victory then rgb_cmds 0 (if lit then 1 else 0) 0 else rgb_cmds (if lit then 1 else 0) 0 0

/-- Successive invocations of `blink_led_callback` (the state after `n` of
them). -/
def blink_run : Nat → State → State
  | 0, s => s
  | n + 1, s => blink_run n (blink_led_callback s).1

/-! ## The environment: timed events

The program is driven by the SDK: the repeating game timer calls `game_loop`,
a GPIO interrupt calls `button_handler`, a one-shot alarm calls its callback
once, not before it is due, and the repeating blink timer calls
`blink_led_callback` while it is active.  Events are delivered one at a time,
at non-decreasing times. -/

/-- What the SDK can deliver to the program. -/
inductive Event
  | tick (x_sample y_sample r1 r2 : Nat)
  | edge (gpio events : Nat)
  | alarm (i : Nat) (r1 r2 : Nat)
  | blink
  deriving DecidableEq, Repr

/-- The function an alarm runs (`r1`, `r2`: what `rand` returns to it). -/
def run_callback (cb : Callback) (r1 r2 : Nat) (s : State) : State :=
  match cb with
  | .button_a_debounce_callback => button_a_debounce_callback s
  | .button_b_debounce_callback => button_b_debounce_callback r1 r2 s
  | .joystick_btn_debounce_callback => joystick_btn_debounce_callback s
  | .reset_game_callback => reset_game_callback r1 r2 s
  | .stop_sound buzzer => stop_sound buzzer s

/-- The `i`-th pending alarm fires at the current time, if it is due. -/
def fire_alarm (i r1 r2 : Nat) (s : State) : Option State :=
  match s.alarms[i]? with
  | some a =>
    if a.due_us ≤ s.time_us then
      some (run_callback a.cb r1 r2 { s with alarms := s.alarms.eraseIdx i })
    else none
  | none => none

/-- Delivery of event `e` at time `t`; `none` when the event cannot happen
then (time would run backwards, the alarm is not pending or not yet due, the
blink timer is not active). -/
def deliver (t : Nat) (e : Event) (s : State) : Option State :=
  if s.time_us ≤ t then
    match e with
    | .tick x y r1 r2 => some (game_loop x y r1 r2 { s with time_us := t })
    | .edge gpio events => some (button_handler gpio events { s with time_us := t })
    | .alarm i r1 r2 => fire_alarm i r1 r2 { s with time_us := t }
    | .blink =>
      if s.blink_timer_ptr then some (blink_led_callback { s with time_us := t }).1 else none
  else none

/-- Delivery of a sequence of timed events. -/
def run : List (Nat × Event) → State → Option State
  | [], s => some s
  | (t, e) :: rest, s => (deliver t e s).bind (run rest)

/-- The states the program can be in. -/
def Reachable (s : State) : Prop := ∃ tr, run tr boot = some s

/-- The pending alarms that will run `cb`. -/
def pending_alarms (cb : Callback) (s : State) : List Alarm :=
  s.alarms.filter (fun a => a.cb = cb)

/-- The number of pending alarms that will run `cb`. -/
def pending (cb : Callback) (s : State) : Nat := (pending_alarms cb s).length

/-- The callback debounces a button: it is neither `reset_game_callback` nor
`stop_sound`. -/
def is_debounce : Callback → Bool
  | .button_a_debounce_callback => true
  | .button_b_debounce_callback => true
  | .joystick_btn_debounce_callback => true
  | .reset_game_callback => false
  | .stop_sound _ => false

/-- The event is a falling edge of the joystick button that `button_handler`
accepts when delivered at time `t`. -/
def accepted_press (t : Nat) (e : Event) (s : State) : Bool :=
  match e with
  | .edge gpio events =>
    gpio = JOYSTICK_BTN ∧ falling events ∧ joystick_accepts { s with time_us := t }
  | _ => false

/-- The times of the accepted presses of the joystick button in a run. -/
def accepted_presses : List (Nat × Event) → State → List Nat
  | [], _ => []
  | (t, e) :: rest, s =>
    match deliver t e s with
    | some s' => (if accepted_press t e s then [t] else []) ++ accepted_presses rest s'
    | none => []

/-- The suppressed flag a button debounce callback clears. -/
def suppressed (cb : Callback) (s : State) : Bool :=
  match cb with
  | .button_a_debounce_callback => s.button_a_pressed
  | .button_b_debounce_callback => s.button_b_pressed
  | _ => false

/-- The debounce alarm of a button is armed, due at `due`, its flag is set
and no other alarm for the same callback is pending. -/
def Armed (cb : Callback) (due : Nat) (s : State) : Prop :=
  suppressed cb s = true ∧ pending_alarms cb s = [{ due_us := due, cb := cb }]

/-- A button's suppressed flag is set exactly when one debounce alarm for it
is pending, and no more than one ever is. -/
def Consistent (s : State) : Prop :=
  ∀ cb, cb = .button_a_debounce_callback ∨ cb = .button_b_debounce_callback →
    pending cb s = if suppressed cb s then 1 else 0

/-! ## Concrete states and runs -/

/-- A playing state one hit away from the win threshold. -/
def match_point_state : State := { boot with score := 24, click_count := 7, joystick_btn_pressed := true }

/-- An ended state. -/
def ended_state : State := { boot with score := 25, game_over := true, victory := true }

/-- A paused state with a confirm pending. -/
def paused_state : State :=
  { boot with score := 3, click_count := 2, paused := true, joystick_btn_pressed := true }

/-- The blink session `show_game_over_screen` sets up on `boot`. -/
def fresh_blink_state : State :=
  { boot with game_over := true, led_blink_count := 20, led_state := true, blink_timer_ptr := true }

/-- Three presses of the joystick button, at 150 ms, 200 ms and 260 ms. -/
def three_presses : List (Nat × Event) :=
  [(150000, .edge JOYSTICK_BTN 4), (200000, .edge JOYSTICK_BTN 4), (260000, .edge JOYSTICK_BTN 4)]

/-! ## Any interleaving of the entry points

Reachability without the scheduling constraints of `deliver`: the entry points
of the program may be called in any order and at any time, the clock may show
any value and any alarm may leave the pool. -/

/-- One step of an interleaving. -/
inductive Step
  | tick (x_sample y_sample r1 r2 : Nat)
  | edge (gpio events : Nat)
  | callback (cb : Callback) (r1 r2 : Nat)
  | blink
  | clock (t : Nat)
  | drop (i : Nat)
  deriving DecidableEq, Repr

/-- The effect of a step: `game_loop`, `button_handler`, an alarm callback,
`blink_led_callback`, a new reading of the timer, an alarm removed from the
pool. -/
def step : Step → State → State
  | .tick x y r1 r2, s => game_loop x y r1 r2 s
  | .edge gpio events, s => button_handler gpio events s
  | .callback cb r1 r2, s => run_callback cb r1 r2 s
  | .blink, s => (blink_led_callback s).1
  | .clock t, s => { s with time_us := t }
  | .drop i, s => { s with alarms := s.alarms.eraseIdx i }

/-- A sequence of steps. -/
def steps (cs : List Step) (s : State) : State := cs.foldl (fun s c => step c s) s

/-- The states reachable from `boot` by any interleaving. -/
def Interleaved (s : State) : Prop := ∃ cs, steps cs boot = s

/-- The invariant of the gameplay variables. -/
def GameInv (s : State) : Prop :=
  (s.victory = true → s.game_over = true) ∧
  s.score ≤ 25 ∧ s.click_count ≤ 11 ∧
  (s.game_over = false → s.score ≤ 24 ∧ s.click_count ≤ 10) ∧
  (2 ≤ s.target_x ∧ s.target_x ≤ 125) ∧ (2 ≤ s.target_y ∧ s.target_y ≤ 61)

/-- Consecutive ticks in each of which a confirm is pending: the flag is set,
as an accepted press sets it, before each `game_loop`. -/
def confirm_ticks (inps : List TickInput) (s : State) : State :=
  inps.foldl
    (fun s i => game_loop i.x_sample i.y_sample i.r1 i.r2 { s with joystick_btn_pressed := true }) s

/-- The commands of `update_display`: the live frame. -/
def live_frame (s : State) : List HwCmd :=
  [.ssd1306_fill false, .ssd1306_draw_string "Score:" 0 0]
    ++ draw_chars (snprintf4 s.score) 48 0
    ++ draw_chars (snprintf4 s.click_count) 0 12
    ++ draw_marker s.cursor_x s.cursor_y
    ++ draw_marker s.target_x s.target_y
    ++ [.ssd1306_send_data]

/-- The defeat block of `game_loop` is entered by the tick. -/
def takes_defeat_branch (x y r1 r2 : Nat) (s : State) : Bool :=
  !s.game_over && (s.playing && !s.paused) &&
    decide (10 < (handle_confirm r1 r2 (read_joystick x y s)).click_count)

/-- The victory block of `game_loop` is entered by the tick. -/
def takes_victory_branch (x y r1 r2 : Nat) (s : State) : Bool :=
  !s.game_over && (s.playing && !s.paused) &&
    decide (25 ≤ (check_defeat (handle_confirm r1 r2 (read_joystick x y s))).score)

/-- One round of a winning game: the timer advances by 200 ms, the joystick
button is pressed with the cursor on the target, the next tick counts the hit
and `rand` puts the new target back at (64, 32). -/
def win_round (k : Nat) : List Step :=
  [.clock (200000 * (k + 1)), .edge JOYSTICK_BTN 4, .tick 2048 2047 62 30]

/-- One round of a losing game: as `win_round`, with the cursor in a corner. -/
def miss_round (k : Nat) : List Step :=
  [.clock (200000 * (k + 1)), .edge JOYSTICK_BTN 4, .tick 0 0 0 0]

/-- The state after `n` hits in a row from `boot`. -/
def hits_state (n : Nat) : State := steps ((List.range n).flatMap win_round) boot

/-- The state after `n` misses in a row from `boot`. -/
def misses_state (n : Nat) : State := steps ((List.range n).flatMap miss_round) boot

/-- The state after ten misses in a row and an eleventh accepted press. -/
def eleventh_press_state : State :=
  steps ((List.range 10).flatMap miss_round ++ [.clock 2200000, .edge JOYSTICK_BTN 4]) boot

/-- The steps that neither toggle the pause, nor reset the game, nor run the
debounce alarm of the joystick button: ticks, edges, `stop_sound`, blink
callbacks, clock readings and dropped alarms. -/
def keeps_idle : Step → Bool
  | .callback (.stop_sound _) _ _ => true
  | .callback _ _ _ => false
  | _ => true

/-- A confirm press delivered to `button_handler` in state `s`, the steps
`mid` after it, then the debounce alarm of the press. -/
def discard_press (events : Nat) (mid : List Step) (s : State) : State :=
  joystick_btn_debounce_callback (steps mid (button_handler JOYSTICK_BTN events s))

/-- The state after the first accepted press of the joystick button, 200 ms
after boot. -/
def first_press_state : State := steps [.clock 200000, .edge JOYSTICK_BTN 4] boot

/-- Button A pauses the game (edge at 300 ms, debounce alarm at 500 ms); it is
pressed again at 600 ms, which arms the alarm that ends the pause for 800 ms. -/
def pause_run : List (Nat × Event) :=
  [(300000, .edge BUTTON_A 4), (500000, .alarm 0 0 0), (600000, .edge BUTTON_A 4)]

/-- During the pause of `pause_run` the joystick button is pressed at 750 ms
and a tick follows; the debounce alarm of the press is due at 850 ms. -/
def paused_press_run : List (Nat × Event) :=
  pause_run ++ [(750000, .edge JOYSTICK_BTN 4), (751000, .tick 0 0 0 0)]

/-- The pause ends at 800 ms, before the debounce alarm of the press; the
next tick samples `x`, `y`. -/
def early_resume_run (x y : Nat) : List (Nat × Event) :=
  paused_press_run ++ [(800000, .alarm 0 0 0), (801000, .tick x y 0 0)]

/-- The mid steps of the sample run of a discarded press. -/
def idle_steps : List Step :=
  [.tick 0 0 0 0, .clock 550000, .edge BUTTON_A 4, .blink, .tick 1 1 1 1]

/-- Eleven ticks with the cursor in a corner. -/
def eleven_corner_ticks : List TickInput := List.replicate 11 ⟨0, 0, 0, 0⟩

/-- A paused state late enough for a press of the joystick button to be
accepted. -/
def paused_late_state : State :=
  { boot with score := 3, click_count := 2, paused := true, time_us := 500000 }

theorem play_sound_nf (buzzer freq : Nat) (s : State) :
    play_sound buzzer freq s = { s with
      out := s.out ++ sound_cmds buzzer freq
      sound_active := true
      alarms := s.alarms ++ [{ due_us := s.time_us + 200 * 1000, cb := .stop_sound buzzer }] } := rfl

theorem release_blink_timer_nf (s : State) :
    release_blink_timer s = { s with
      out := s.out ++ release_cmds s.blink_timer_ptr
      blink_timer_ptr := false } := by
  cases s with
  | mk _ _ _ _ _ _ _ _ _ _ _ _ _ _ _ _ _ ptr _ _ _ _ =>
    cases ptr <;> simp [release_blink_timer, release_cmds, emit]

theorem show_game_over_screen_nf (s : State) :
    show_game_over_screen s = { s with
      out := s.out ++ (defeat_screen ++ sound_cmds BUZZER2 3000
        ++ release_cmds s.blink_timer_ptr ++ [.add_repeating_timer_ms 250])
      sound_active := true
      alarms := s.alarms ++ [{ due_us := s.time_us + 200 * 1000, cb := .stop_sound BUZZER2 }]
      led_blink_count := 20
      led_state := true
      blink_timer_ptr := true } := by
  simp [show_game_over_screen, start_blink, release_blink_timer_nf, play_sound_nf, emit]

theorem show_victory_screen_nf (s : State) :
    show_victory_screen s = { s with
      out := s.out ++ (matrix_cmds 25 ++ victory_screen ++ sound_cmds BUZZER1 2500
        ++ release_cmds s.blink_timer_ptr ++ [.add_repeating_timer_ms 250])
      sound_active := true
      alarms := s.alarms ++ [{ due_us := s.time_us + 200 * 1000, cb := .stop_sound BUZZER1 }]
      led_blink_count := 20
      led_state := true
      blink_timer_ptr := true } := by
  simp [show_victory_screen, start_blink, release_blink_timer_nf, play_sound_nf, emit,
    update_led_matrix, matrix_cmds]

theorem reset_game_nf (r1 r2 : Nat) (s : State) :
    reset_game r1 r2 s = { s with
      score := 0, click_count := 0, game_over := false, victory := false,
      playing := true, paused := false, cursor_x := 64, cursor_y := 32,
      target_x := r1 % 124 + 2, target_y := r2 % 60 + 2,
      out := s.out ++ (matrix_cmds 0 ++ [.gpio_put LED_R 0, .gpio_put LED_G 1, .gpio_put LED_B 0]
        ++ release_cmds s.blink_timer_ptr)
      blink_timer_ptr := false } := by
  have h1 : u8 ((r1 % (WIDTH - 4) + 2 : Nat)) = r1 % 124 + 2 := by
    simp only [u8, WIDTH]; omega
  have h2 : u8 ((r2 % (HEIGHT - 4) + 2 : Nat)) = r2 % 60 + 2 := by
    simp only [u8, HEIGHT]; omega
  have h3 : u8 ((WIDTH / 2 : Nat)) = 64 := by decide
  have h4 : u8 ((HEIGHT / 2 : Nat)) = 32 := by decide
  simp only [reset_game, h1, h2, h3, h4, release_blink_timer_nf, set_rgb_led, update_led_matrix, emit, matrix_cmds]
  simp

theorem hit_iff (s : State) :
    hit s = true ↔ |(s.cursor_x : Int) - s.target_x| < 3 ∧ |(s.cursor_y : Int) - s.target_y| < 3 := by
  simp only [hit, decide_eq_true_eq, abs_lt]
  omega

theorem u8_succ (n : Nat) : u8 ((n : Int) + 1) = (n + 1) % 256 := by
  simp only [u8]; omega

theorem u8_target_x (r : Nat) : u8 ((r % (WIDTH - 4) + 2 : Nat)) = r % 124 + 2 := by
  simp only [u8, WIDTH]; omega

theorem u8_target_y (r : Nat) : u8 ((r % (HEIGHT - 4) + 2 : Nat)) = r % 60 + 2 := by
  simp only [u8, HEIGHT]; omega

theorem handle_confirm_nf (r1 r2 : Nat) (s : State) :
    handle_confirm r1 r2 s = { s with
      click_count := if s.joystick_btn_pressed then (if hit s then 0 else (s.click_count + 1) % 256)
        else s.click_count
      joystick_btn_pressed := false
      score := if s.joystick_btn_pressed ∧ hit s then (s.score + 1) % 256 else s.score
      target_x := if s.joystick_btn_pressed ∧ hit s then r1 % 124 + 2 else s.target_x
      target_y := if s.joystick_btn_pressed ∧ hit s then r2 % 60 + 2 else s.target_y
      sound_active := if s.joystick_btn_pressed ∧ hit s then true else s.sound_active
      alarms := s.alarms ++ if s.joystick_btn_pressed ∧ hit s then
        [{ due_us := s.time_us + 200 * 1000, cb := .stop_sound BUZZER1 }] else []
      out := s.out ++ if s.joystick_btn_pressed ∧ hit s then
        sound_cmds BUZZER1 2000 ++ matrix_cmds ((s.score + 1) % 256) else [] } := by
  cases s with
  | mk cx cy tx ty sc cc pl pa go vi lp ba bb jp sa lc ls bp tu al ji out =>
    cases jp
    · simp [handle_confirm]
    · by_cases hh : (Int.natAbs ((cx : Int) - tx) < 3 ∧ Int.natAbs ((cy : Int) - ty) < 3)
      · simp [handle_confirm, hit, hh, u8_succ, play_sound_nf, update_led_matrix, emit,
          matrix_cmds]
        constructor <;> (simp only [u8, WIDTH, HEIGHT]; omega)
      · simp [handle_confirm, hit, hh, u8_succ]

theorem check_defeat_nf (s : State) :
    check_defeat s = { s with
      game_over := if 10 < s.click_count then true else s.game_over
      victory := if 10 < s.click_count then false else s.victory
      sound_active := if 10 < s.click_count then true else s.sound_active
      led_blink_count := if 10 < s.click_count then 20 else s.led_blink_count
      led_state := if 10 < s.click_count then true else s.led_state
      blink_timer_ptr := if 10 < s.click_count then true else s.blink_timer_ptr
      alarms := s.alarms ++ if 10 < s.click_count then
        [{ due_us := s.time_us + 200 * 1000, cb := .stop_sound BUZZER2 },
         { due_us := s.time_us + 5000 * 1000, cb := .reset_game_callback }] else []
      out := s.out ++ if 10 < s.click_count then
        defeat_screen ++ sound_cmds BUZZER2 3000 ++ release_cmds s.blink_timer_ptr
          ++ [.add_repeating_timer_ms 250] else [] } := by
  by_cases h : 10 < s.click_count
  · simp [check_defeat, h, show_game_over_screen_nf, add_alarm_in_ms]
  · simp [check_defeat, h]

theorem check_victory_nf (s : State) :
    check_victory s = { s with
      game_over := if 25 ≤ s.score then true else s.game_over
      victory := if 25 ≤ s.score then true else s.victory
      sound_active := if 25 ≤ s.score then true else s.sound_active
      led_blink_count := if 25 ≤ s.score then 20 else s.led_blink_count
      led_state := if 25 ≤ s.score then true else s.led_state
      blink_timer_ptr := if 25 ≤ s.score then true else s.blink_timer_ptr
      alarms := s.alarms ++ if 25 ≤ s.score then
        [{ due_us := s.time_us + 200 * 1000, cb := .stop_sound BUZZER1 },
         { due_us := s.time_us + 5000 * 1000, cb := .reset_game_callback }] else []
      out := s.out ++ if 25 ≤ s.score then
        matrix_cmds 25 ++ (matrix_cmds 25 ++ victory_screen ++ sound_cmds BUZZER1 2500
          ++ release_cmds s.blink_timer_ptr ++ [.add_repeating_timer_ms 250]) else [] } := by
  by_cases h : 25 ≤ s.score
  · simp [check_victory, h, show_victory_screen_nf, add_alarm_in_ms, update_led_matrix, emit,
      matrix_cmds]
  · simp [check_victory, h]

theorem game_loop_playing (x y r1 r2 : Nat) (s : State) (hgo : s.game_over = false)
    (hpl : s.playing = true) (hpa : s.paused = false) :
    game_loop x y r1 r2 s = set_rgb_led 0 1 0 (update_display (check_victory (check_defeat
      (handle_confirm r1 r2 (read_joystick x y s))))) := by
  simp [game_loop, hgo, hpl, hpa]

theorem read_joystick_nf (x y : Nat) (s : State) :
    read_joystick x y s = { s with cursor_x := cursor_x_of x, cursor_y := cursor_y_of y } := rfl

theorem game_loop_ended (x y r1 r2 : Nat) (s : State) (hgo : s.game_over = true) :
    game_loop x y r1 r2 s = { s with out := s.out ++ final_screen s.victory } := by
  cases hv : s.victory <;> simp [game_loop, hgo, maintain_final_screen, emit, hv, final_screen]

theorem game_loop_paused (x y r1 r2 : Nat) (s : State) (hgo : s.game_over = false)
    (hpa : s.paused = true) :
    game_loop x y r1 r2 s = { s with out := s.out ++ rgb_cmds 1 1 0 } := by
  simp [game_loop, hgo, hpa, set_rgb_led, emit, rgb_cmds]

/-! ## A playing tick, field by field -/

theorem game_loop_playing_score (x y r1 r2 : Nat) (s : State) (hgo : s.game_over = false)
    (hpl : s.playing = true) (hpa : s.paused = false) :
    (game_loop x y r1 r2 s).score =
      if s.joystick_btn_pressed ∧ hit (read_joystick x y s) then (s.score + 1) % 256
      else s.score := by
  rw [game_loop_playing x y r1 r2 s hgo hpl hpa]
  simp [set_rgb_led, update_display, emit, check_victory_nf, check_defeat_nf, handle_confirm_nf]
  simp [read_joystick_nf]

theorem game_loop_playing_click_count (x y r1 r2 : Nat) (s : State) (hgo : s.game_over = false)
    (hpl : s.playing = true) (hpa : s.paused = false) :
    (game_loop x y r1 r2 s).click_count =
      if s.joystick_btn_pressed then
        (if hit (read_joystick x y s) then 0 else (s.click_count + 1) % 256)
      else s.click_count := by
  rw [game_loop_playing x y r1 r2 s hgo hpl hpa]
  simp [set_rgb_led, update_display, emit, check_victory_nf, check_defeat_nf, handle_confirm_nf]
  simp [read_joystick_nf]

theorem game_loop_playing_pending (x y r1 r2 : Nat) (s : State) (hgo : s.game_over = false)
    (hpl : s.playing = true) (hpa : s.paused = false) :
    (game_loop x y r1 r2 s).joystick_btn_pressed = false := by
  rw [game_loop_playing x y r1 r2 s hgo hpl hpa]
  simp [set_rgb_led, update_display, emit, check_victory_nf, check_defeat_nf, handle_confirm_nf]

theorem game_loop_playing_game_over (x y r1 r2 : Nat) (s : State) (hgo : s.game_over = false)
    (hpl : s.playing = true) (hpa : s.paused = false) :
    (game_loop x y r1 r2 s).game_over =
      decide (10 < (handle_confirm r1 r2 (read_joystick x y s)).click_count ∨
        25 ≤ (handle_confirm r1 r2 (read_joystick x y s)).score) := by
  rw [game_loop_playing x y r1 r2 s hgo hpl hpa]
  have h : (handle_confirm r1 r2 (read_joystick x y s)).game_over = false := by
    simp [handle_confirm_nf, read_joystick_nf, hgo]
  generalize handle_confirm r1 r2 (read_joystick x y s) = m at h ⊢
  by_cases h1 : 10 < m.click_count <;> by_cases h2 : 25 ≤ m.score <;>
    simp [set_rgb_led, update_display, emit, check_victory_nf, check_defeat_nf, h, h1, h2]

theorem game_loop_playing_victory (x y r1 r2 : Nat) (s : State) (hgo : s.game_over = false)
    (hpl : s.playing = true) (hpa : s.paused = false) :
    (game_loop x y r1 r2 s).victory =
      if 25 ≤ (handle_confirm r1 r2 (read_joystick x y s)).score then true
      else if 10 < (handle_confirm r1 r2 (read_joystick x y s)).click_count then false
      else s.victory := by
  rw [game_loop_playing x y r1 r2 s hgo hpl hpa]
  have h : (handle_confirm r1 r2 (read_joystick x y s)).victory = s.victory := by
    simp [handle_confirm_nf, read_joystick_nf]
  generalize handle_confirm r1 r2 (read_joystick x y s) = m at h ⊢
  by_cases h1 : 10 < m.click_count <;> by_cases h2 : 25 ≤ m.score <;>
    simp [set_rgb_led, update_display, emit, check_victory_nf, check_defeat_nf, h, h1, h2]

theorem game_loop_playing_click_count_eq (x y r1 r2 : Nat) (s : State) (hgo : s.game_over = false)
    (hpl : s.playing = true) (hpa : s.paused = false) :
    (game_loop x y r1 r2 s).click_count =
      (handle_confirm r1 r2 (read_joystick x y s)).click_count := by
  rw [game_loop_playing x y r1 r2 s hgo hpl hpa]
  simp [set_rgb_led, update_display, emit, check_victory_nf, check_defeat_nf]

/-- The gameplay outcome of a tick does not depend on the command stream nor on
the flag of button A. -/
theorem game_loop_resume (x y r1 r2 : Nat) (s : State) (cmds : List HwCmd) (b : Bool) :
    (game_loop x y r1 r2 { s with out := s.out ++ cmds, button_a_pressed := b }).score
      = (game_loop x y r1 r2 s).score ∧
    (game_loop x y r1 r2 { s with out := s.out ++ cmds, button_a_pressed := b }).click_count
      = (game_loop x y r1 r2 s).click_count ∧
    (game_loop x y r1 r2 { s with out := s.out ++ cmds, button_a_pressed := b }).game_over
      = (game_loop x y r1 r2 s).game_over ∧
    (game_loop x y r1 r2 { s with out := s.out ++ cmds, button_a_pressed := b }).victory
      = (game_loop x y r1 r2 s).victory := by
  cases hgo : s.game_over
  · cases hpa : s.paused
    · cases hpl : s.playing
      · simp [game_loop, hgo, hpa, hpl, set_rgb_led, emit]
      · rw [game_loop_playing x y r1 r2 s hgo hpl hpa,
          game_loop_playing x y r1 r2 _ (by simp [hgo]) (by simp [hpl]) (by simp [hpa])]
        simp only [set_rgb_led, update_display, emit, check_victory_nf, check_defeat_nf,
          handle_confirm_nf, read_joystick_nf, hit, hgo, and_self]
    · rw [game_loop_paused x y r1 r2 s hgo hpa,
        game_loop_paused x y r1 r2 _ (by simp [hgo]) (by simp [hpa])]
      simp [hgo]
  · rw [game_loop_ended x y r1 r2 s hgo, game_loop_ended x y r1 r2 _ (by simp [hgo])]
    simp [hgo]

/-! ## The confirm tick -/

/-- A confirm tick in any state of the globals, the counters taken as
`uint8_t`: on a hit the click counter becomes 0 and the score increases by 1
if it was below 255, on a miss the score is unchanged and the click counter
increases by 1 if it was below 255; the pending confirm flag is cleared. -/
theorem confirm_tick_below_255 (x y r1 r2 : Nat) (s : State)
    (hgo : s.game_over = false) (hpl : s.playing = true) (hpa : s.paused = false)
    (hbtn : s.joystick_btn_pressed = true) :
    ((|((read_joystick x y s).cursor_x : Int) - s.target_x| < 3 ∧
      |((read_joystick x y s).cursor_y : Int) - s.target_y| < 3) →
        (s.score < 255 → (game_loop x y r1 r2 s).score = s.score + 1) ∧
        (game_loop x y r1 r2 s).click_count = 0) ∧
    (¬ (|((read_joystick x y s).cursor_x : Int) - s.target_x| < 3 ∧
      |((read_joystick x y s).cursor_y : Int) - s.target_y| < 3) →
        (s.click_count < 255 → (game_loop x y r1 r2 s).click_count = s.click_count + 1) ∧
        (game_loop x y r1 r2 s).score = s.score) ∧
    (game_loop x y r1 r2 s).joystick_btn_pressed = false := by
  have hh := hit_iff (read_joystick x y s)
  rw [show (read_joystick x y s).target_x = s.target_x from rfl,
    show (read_joystick x y s).target_y = s.target_y from rfl] at hh
  rw [game_loop_playing_score x y r1 r2 s hgo hpl hpa,
    game_loop_playing_click_count x y r1 r2 s hgo hpl hpa,
    game_loop_playing_pending x y r1 r2 s hgo hpl hpa, ← hh]
  refine ⟨fun h => ?_, fun h => ?_, rfl⟩
  · simp only [hbtn, h, and_self, if_true]
    exact ⟨fun hs => by omega, trivial⟩
  · have hf : hit (read_joystick x y s) = false := by simpa using h
    simp only [hbtn, hf, if_true, and_false, if_false]
    exact ⟨fun hc => by simp; omega, by simp⟩

/-! ## Defeat and victory on the tick that reaches the threshold -/

/-- A playing tick in any state of the globals in which the click counter is
above 10 after confirm handling ends with `game_over` true, and with `victory`
false exactly when the score is below 25 at that point; no playing tick ends
with the click counter above 10 and `game_over` false. -/
theorem defeat_tick_cases (x y r1 r2 : Nat) (s : State)
    (hgo : s.game_over = false) (hpl : s.playing = true) (hpa : s.paused = false) :
    (10 < (handle_confirm r1 r2 (read_joystick x y s)).click_count →
      (game_loop x y r1 r2 s).game_over = true ∧
      ((handle_confirm r1 r2 (read_joystick x y s)).score < 25 →
        (game_loop x y r1 r2 s).victory = false) ∧
      (25 ≤ (handle_confirm r1 r2 (read_joystick x y s)).score →
        (game_loop x y r1 r2 s).victory = true)) ∧
    ¬ (10 < (game_loop x y r1 r2 s).click_count ∧ (game_loop x y r1 r2 s).game_over = false) := by
  rw [game_loop_playing_game_over x y r1 r2 s hgo hpl hpa,
    game_loop_playing_victory x y r1 r2 s hgo hpl hpa,
    game_loop_playing_click_count_eq x y r1 r2 s hgo hpl hpa]
  generalize handle_confirm r1 r2 (read_joystick x y s) = m
  refine ⟨fun h => ⟨by simp [h], fun h2 => ?_, fun h2 => by simp [h2]⟩, fun h => ?_⟩
  · have : ¬ 25 ≤ m.score := by omega
    simp [this, h]
  · simp [h.1] at h

/-- C3: in every playing tick (`game_over` false, `playing` true, `paused`
false) in which a pending confirm hits the target while the score is 24, the
score becomes 25 and the tick ends with `game_over` true and `victory` true. -/
theorem victory_same_tick (x y r1 r2 : Nat) (s : State)
    (hgo : s.game_over = false) (hpl : s.playing = true) (hpa : s.paused = false)
    (hbtn : s.joystick_btn_pressed = true) (hsc : s.score = 24)
    (hx : |((read_joystick x y s).cursor_x : Int) - s.target_x| < 3)
    (hy : |((read_joystick x y s).cursor_y : Int) - s.target_y| < 3) :
    (game_loop x y r1 r2 s).score = 25 ∧ (game_loop x y r1 r2 s).game_over = true ∧
    (game_loop x y r1 r2 s).victory = true := by
  have hh : hit (read_joystick x y s) = true := (hit_iff _).2 ⟨hx, hy⟩
  have hm : (handle_confirm r1 r2 (read_joystick x y s)).score = 25 := by
    simp [handle_confirm_nf, hh]
    simp [read_joystick_nf, hbtn, hsc]
  rw [game_loop_playing_score x y r1 r2 s hgo hpl hpa,
    game_loop_playing_game_over x y r1 r2 s hgo hpl hpa,
    game_loop_playing_victory x y r1 r2 s hgo hpl hpa, hm]
  simp [hbtn, hh, hsc]

/-- C3, witness: `victory_same_tick` at `match_point_state` with the joystick
centred. -/
theorem victory_same_tick_witness :
    (game_loop 2048 2048 5 6 match_point_state).score = 25 ∧
    (game_loop 2048 2048 5 6 match_point_state).game_over = true ∧
    (game_loop 2048 2048 5 6 match_point_state).victory = true :=
  victory_same_tick 2048 2048 5 6 match_point_state rfl rfl rfl rfl rfl (by decide) (by decide)

/-! ## Ticks in the ended and in the paused phase -/

theorem ticks_nil (s : State) : ticks [] s = s := rfl

theorem ticks_cons (i : TickInput) (inps : List TickInput) (s : State) :
    ticks (i :: inps) s = ticks inps (game_loop i.x_sample i.y_sample i.r1 i.r2 s) := rfl

theorem ticks_ended (inps : List TickInput) (s : State) (hgo : s.game_over = true) :
    ticks inps s = { s with
      out := s.out ++ (List.replicate inps.length (final_screen s.victory)).flatten } := by
  induction inps generalizing s with
  | nil => simp [ticks_nil]
  | cons i inps ih =>
    rw [ticks_cons, game_loop_ended _ _ _ _ s hgo, ih]
    · simp [List.replicate_succ]
    · exact hgo

theorem ticks_paused (inps : List TickInput) (s : State) (hgo : s.game_over = false)
    (hpa : s.paused = true) :
    ticks inps s = { s with
      out := s.out ++ (List.replicate inps.length (rgb_cmds 1 1 0)).flatten } := by
  induction inps generalizing s with
  | nil => simp [ticks_nil]
  | cons i inps ih =>
    rw [ticks_cons, game_loop_paused _ _ _ _ s hgo hpa, ih]
    · simp [List.replicate_succ]
    · exact hgo
    · exact hpa

/-- C4: in every state with `game_over` true, a `game_loop` tick changes no
field of the state (score, click counter, `game_over`, `victory`, cursor,
target, `paused`, the pending confirm flag and all the others): it only issues
the commands of the final screen selected by `victory`.  Hence any number of
repeated ticks leaves these fields unchanged and issues that screen once per
tick. -/
theorem ended_tick_frame (s : State) (hgo : s.game_over = true) :
    (∀ x y r1 r2 : Nat,
      game_loop x y r1 r2 s = { s with out := s.out ++ final_screen s.victory }) ∧
    (∀ inps : List TickInput,
      ticks inps s = { s with
        out := s.out ++ (List.replicate inps.length (final_screen s.victory)).flatten }) :=
  ⟨fun x y r1 r2 => game_loop_ended x y r1 r2 s hgo, fun inps => ticks_ended inps s hgo⟩

/-- C4, witness: `ended_tick_frame` at `ended_state`, for two ticks. -/
theorem ended_tick_frame_witness :
    ended_state.game_over = true ∧
    ticks [⟨0, 0, 0, 0⟩, ⟨4095, 17, 3, 4⟩] ended_state = { ended_state with
      out := ended_state.out ++ (List.replicate 2 (final_screen ended_state.victory)).flatten } :=
  ⟨rfl, (ended_tick_frame ended_state rfl).2 [⟨0, 0, 0, 0⟩, ⟨4095, 17, 3, 4⟩]⟩

/-- C5: from every prior state and for every pair of results of `rand`,
`reset_game` yields score 0, click counter 0, `game_over` false, `victory`
false, `playing` true, `paused` false, the cursor at (64, 32), `target_x` in
[2, 125], `target_y` in [2, 61] and a `NULL` blink timer handle; the automatic
reset (`reset_game_callback`) is `reset_game` itself and the manual one
(`button_b_debounce_callback`) is `reset_game` after clearing the button
flag. -/
theorem reset_game_restores (r1 r2 : Nat) (s : State) :
    ((reset_game r1 r2 s).score = 0 ∧ (reset_game r1 r2 s).click_count = 0 ∧
      (reset_game r1 r2 s).game_over = false ∧ (reset_game r1 r2 s).victory = false ∧
      (reset_game r1 r2 s).playing = true ∧ (reset_game r1 r2 s).paused = false ∧
      (reset_game r1 r2 s).cursor_x = 64 ∧ (reset_game r1 r2 s).cursor_y = 32 ∧
      (2 ≤ (reset_game r1 r2 s).target_x ∧ (reset_game r1 r2 s).target_x ≤ 125) ∧
      (2 ≤ (reset_game r1 r2 s).target_y ∧ (reset_game r1 r2 s).target_y ≤ 61) ∧
      (reset_game r1 r2 s).blink_timer_ptr = false) ∧
    reset_game_callback r1 r2 s = reset_game r1 r2 s ∧
    button_b_debounce_callback r1 r2 s = reset_game r1 r2 { s with button_b_pressed := false } := by
  refine ⟨?_, rfl, rfl⟩
  simp only [reset_game_nf]
  refine ⟨trivial, trivial, trivial, trivial, trivial, trivial, trivial, trivial,
    ⟨?_, ?_⟩, ⟨?_, ?_⟩, trivial⟩ <;> omega

/-- C6: in every state with `game_over` false and `paused` true, a `game_loop`
tick changes no field of the state, whether or not a confirm is pending (it
only drives the status LED), and so does any number of such ticks.  When
`button_a_debounce_callback` then toggles `paused` back to false, the score,
the click counter and the pending flag are those held when the pause began, and
the next tick has the score, click counter, `game_over` and `victory` that the
same tick would have produced had the pause never happened; with a pending
confirm (and `playing` true) it counts from the held values: on a hit the score
becomes the held score plus one (modulo 256) and the click counter 0, on a miss
the click counter becomes the held one plus one (modulo 256) and the score is
the held score. -/
theorem paused_ticks_frame (s : State) (hgo : s.game_over = false) (hpa : s.paused = true) :
    (∀ x y r1 r2 : Nat, game_loop x y r1 r2 s = { s with out := s.out ++ rgb_cmds 1 1 0 }) ∧
    (∀ inps : List TickInput,
      ticks inps s = { s with
        out := s.out ++ (List.replicate inps.length (rgb_cmds 1 1 0)).flatten }) ∧
    (∀ inps : List TickInput,
      (button_a_debounce_callback (ticks inps s)).paused = false ∧
      (button_a_debounce_callback (ticks inps s)).score = s.score ∧
      (button_a_debounce_callback (ticks inps s)).click_count = s.click_count ∧
      (button_a_debounce_callback (ticks inps s)).joystick_btn_pressed = s.joystick_btn_pressed) ∧
    (∀ (inps : List TickInput) (x y r1 r2 : Nat),
      (game_loop x y r1 r2 (button_a_debounce_callback (ticks inps s))).score
        = (game_loop x y r1 r2 { s with paused := false }).score ∧
      (game_loop x y r1 r2 (button_a_debounce_callback (ticks inps s))).click_count
        = (game_loop x y r1 r2 { s with paused := false }).click_count ∧
      (game_loop x y r1 r2 (button_a_debounce_callback (ticks inps s))).game_over
        = (game_loop x y r1 r2 { s with paused := false }).game_over ∧
      (game_loop x y r1 r2 (button_a_debounce_callback (ticks inps s))).victory
        = (game_loop x y r1 r2 { s with paused := false }).victory) ∧
    (∀ (inps : List TickInput) (x y r1 r2 : Nat),
      s.playing = true → s.joystick_btn_pressed = true →
      ((|((read_joystick x y s).cursor_x : Int) - s.target_x| < 3 ∧
        |((read_joystick x y s).cursor_y : Int) - s.target_y| < 3) →
          (game_loop x y r1 r2 (button_a_debounce_callback (ticks inps s))).score
            = (s.score + 1) % 256 ∧
          (game_loop x y r1 r2 (button_a_debounce_callback (ticks inps s))).click_count = 0) ∧
      (¬ (|((read_joystick x y s).cursor_x : Int) - s.target_x| < 3 ∧
        |((read_joystick x y s).cursor_y : Int) - s.target_y| < 3) →
          (game_loop x y r1 r2 (button_a_debounce_callback (ticks inps s))).click_count
            = (s.click_count + 1) % 256 ∧
          (game_loop x y r1 r2 (button_a_debounce_callback (ticks inps s))).score = s.score)) := by
  refine ⟨fun x y r1 r2 => game_loop_paused x y r1 r2 s hgo hpa,
    fun inps => ticks_paused inps s hgo hpa, fun inps => ?_, fun inps x y r1 r2 => ?_,
    fun inps x y r1 r2 hpl hbtn => ?_⟩
  · rw [ticks_paused inps s hgo hpa]
    simp [button_a_debounce_callback, hpa]
  · rw [ticks_paused inps s hgo hpa]
    have h := game_loop_resume x y r1 r2 { s with paused := false }
      (List.replicate inps.length (rgb_cmds 1 1 0)).flatten false
    simpa [button_a_debounce_callback, hpa] using h
  · have hh := hit_iff (read_joystick x y s)
    rw [show (read_joystick x y s).target_x = s.target_x from rfl,
      show (read_joystick x y s).target_y = s.target_y from rfl] at hh
    rw [ticks_paused inps s hgo hpa]
    generalize hu : button_a_debounce_callback
      { s with out := s.out ++ (List.replicate inps.length (rgb_cmds 1 1 0)).flatten } = u
    have h1 : u.game_over = false := by rw [← hu]; simpa [button_a_debounce_callback] using hgo
    have h2 : u.playing = true := by rw [← hu]; simpa [button_a_debounce_callback] using hpl
    have h3 : u.paused = false := by rw [← hu]; simp [button_a_debounce_callback, hpa]
    have h4 : u.joystick_btn_pressed = true := by
      rw [← hu]; simpa [button_a_debounce_callback] using hbtn
    have h5 : hit (read_joystick x y u) = hit (read_joystick x y s) := by
      rw [← hu]; simp [hit, read_joystick_nf, button_a_debounce_callback]
    have h6 : u.score = s.score := by rw [← hu]; simp [button_a_debounce_callback]
    have h7 : u.click_count = s.click_count := by rw [← hu]; simp [button_a_debounce_callback]
    rw [game_loop_playing_score x y r1 r2 u h1 h2 h3,
      game_loop_playing_click_count x y r1 r2 u h1 h2 h3, h4, h5, h6, h7, ← hh]
    refine ⟨fun h => ?_, fun h => ?_⟩
    · simp [h]
    · have hf : hit (read_joystick x y s) = false := by simpa using h
      simp [hf]

/-- C6, witness: `paused_ticks_frame` at `paused_state`; after three paused
ticks and the pause toggle, a miss counts from the held click counter 2. -/
theorem paused_ticks_frame_witness :
    (game_loop 0 0 0 0 (button_a_debounce_callback
      (ticks [⟨0, 0, 0, 0⟩, ⟨9, 9, 9, 9⟩, ⟨2048, 2048, 1, 1⟩] paused_state))).click_count = 3 ∧
    (game_loop 0 0 0 0 (button_a_debounce_callback
      (ticks [⟨0, 0, 0, 0⟩, ⟨9, 9, 9, 9⟩, ⟨2048, 2048, 1, 1⟩] paused_state))).score = 3 :=
  ((paused_ticks_frame paused_state rfl rfl).2.2.2.2
    [⟨0, 0, 0, 0⟩, ⟨9, 9, 9, 9⟩, ⟨2048, 2048, 1, 1⟩] 0 0 0 0 rfl rfl).2 (by decide)

/-! ## The joystick mapping -/

theorem cursor_x_of_le (x : Nat) : cursor_x_of x ≤ 127 := by
  unfold cursor_x_of
  split
  · simp [WIDTH]
  · simp only [WIDTH] at *; omega

theorem cursor_y_of_le (y : Nat) : cursor_y_of y ≤ 63 := by
  unfold cursor_y_of
  split
  · simp [HEIGHT]
  · simp only [HEIGHT] at *; omega

theorem cursor_x_of_eq (x : Nat) (hx : x ≤ 4095) : cursor_x_of x = x * 128 / 4096 := by
  have h1 : u16 x = x := by simp only [u16]; omega
  have h2 : Int.tdiv ((x : Int) * (WIDTH : Nat)) 4096 = ((x * 128 / 4096 : Nat) : Int) := by
    rw [Int.tdiv_eq_ediv (by positivity) (by norm_num)]
    simp [WIDTH]
  have h3 : u8 ((x * 128 / 4096 : Nat) : Int) = x * 128 / 4096 := by
    simp only [u8]; omega
  unfold cursor_x_of
  rw [h1, h2, h3]
  simp only [WIDTH]
  split
  · omega
  · rfl

theorem cursor_y_of_eq (y : Nat) (hy : y ≤ 4095) : cursor_y_of y = (4095 - y) * 64 / 4096 := by
  have h1 : u16 y = y := by simp only [u16]; omega
  have h2 : Int.tdiv ((4095 - (y : Int)) * (HEIGHT : Nat)) 4096
      = (((4095 - y) * 64 / 4096 : Nat) : Int) := by
    rw [Int.tdiv_eq_ediv (by simp only [HEIGHT]; omega) (by norm_num)]
    simp only [HEIGHT]
    omega
  have h3 : u8 (((4095 - y) * 64 / 4096 : Nat) : Int) = (4095 - y) * 64 / 4096 := by
    simp only [u8]; omega
  unfold cursor_y_of
  rw [h1, h2, h3]
  simp only [HEIGHT]
  split
  · omega
  · rfl

/-- C9: `read_joystick` maps samples to screen coordinates within bounds.  For
every pair of samples (reduced to 16 bits by the `uint16_t` they are stored in)
the resulting `cursor_x` is at most 127 and `cursor_y` at most 63.  For samples
in the 12-bit range 0..4095, `cursor_x` is `x_val * 128 / 4096` rounded down and
does not decrease when `x_val` grows, and `cursor_y` is
`(4095 - y_val) * 64 / 4096` rounded down and does not increase when `y_val`
grows. -/
theorem read_joystick_bounds (x y x' y' : Nat) (s s' : State) :
    ((read_joystick x y s).cursor_x ≤ 127 ∧ (read_joystick x y s).cursor_y ≤ 63) ∧
    (x ≤ 4095 → (read_joystick x y s).cursor_x = x * 128 / 4096) ∧
    (y ≤ 4095 → (read_joystick x y s).cursor_y = (4095 - y) * 64 / 4096) ∧
    (x ≤ x' → x' ≤ 4095 →
      (read_joystick x y s).cursor_x ≤ (read_joystick x' y' s').cursor_x) ∧
    (y ≤ y' → y' ≤ 4095 →
      (read_joystick x' y' s').cursor_y ≤ (read_joystick x y s).cursor_y) := by
  simp only [read_joystick_nf]
  refine ⟨⟨cursor_x_of_le x, cursor_y_of_le y⟩, cursor_x_of_eq x, cursor_y_of_eq y,
    fun h1 h2 => ?_, fun h1 h2 => ?_⟩
  · rw [cursor_x_of_eq x (by omega), cursor_x_of_eq x' h2]; omega
  · rw [cursor_y_of_eq y (by omega), cursor_y_of_eq y' h2]; omega

/-! ## The blink session -/

theorem blink_on_step (s : State) (hc : 0 < s.led_blink_count) (hl : s.led_state = true) :
    blink_led_callback s = ({ s with
      led_state := false, led_blink_count := s.led_blink_count - 1,
      out := s.out ++ led_cmds s.victory true }, true) := by
  cases hv : s.victory <;>
    simp [blink_led_callback, hc, hl, hv, set_rgb_led, emit, led_cmds, rgb_cmds]

theorem blink_off_step (s : State) (hc : 0 < s.led_blink_count) (hl : s.led_state = false) :
    blink_led_callback s = ({ s with
      led_state := true, out := s.out ++ led_cmds s.victory false }, true) := by
  cases hv : s.victory <;>
    simp [blink_led_callback, hc, hl, hv, set_rgb_led, emit, led_cmds, rgb_cmds]

theorem blink_stop_step (s : State) (hc : s.led_blink_count ≤ 0) :
    blink_led_callback s = ({ s with
      out := s.out ++ [.cancel_repeating_timer, .free], blink_timer_ptr := false }, false) := by
  have : ¬ 0 < s.led_blink_count := by omega
  simp [blink_led_callback, this, emit]

theorem blink_run_add (m n : Nat) (s : State) :
    blink_run (m + n) s = blink_run n (blink_run m s) := by
  induction m generalizing s with
  | zero => simp [blink_run]
  | succ m ih => rw [Nat.add_right_comm]; simp only [blink_run]; exact ih _

theorem blink_run_pair (s : State) (hl : s.led_state = true) (hc : 1 < s.led_blink_count) :
    blink_run 2 s = { s with
      led_blink_count := s.led_blink_count - 1,
      out := s.out ++ (led_cmds s.victory true ++ led_cmds s.victory false) } := by
  simp only [blink_run]
  rw [blink_on_step s (by omega) hl]
  rw [blink_off_step _ (by simp only; omega) rfl]
  simp [hl]

/-- After `j` full on/off pairs of a session with more than `j` pairs left. -/
theorem blink_run_pairs (j : Nat) (s : State) (hl : s.led_state = true)
    (hc : (j : Int) < s.led_blink_count) :
    blink_run (2 * j) s = { s with
      led_blink_count := s.led_blink_count - j,
      out := s.out ++ (List.replicate j (led_cmds s.victory true ++ led_cmds s.victory false)).flatten } := by
  induction j with
  | zero => simp [blink_run]
  | succ j ih =>
    have hj := ih (by push_cast at hc; omega)
    rw [show 2 * (j + 1) = 2 * j + 2 from by ring, blink_run_add, hj, blink_run_pair]
    · simp [List.replicate_succ']
      omega
    · exact hl
    · push_cast at hc
      show 1 < s.led_blink_count - j
      omega

/-- After `j` full on/off pairs and one more invocation. -/
theorem blink_run_pairs_lit (j : Nat) (s : State) (hl : s.led_state = true)
    (hc : (j : Int) < s.led_blink_count) :
    blink_run (2 * j + 1) s = { s with
      led_state := false,
      led_blink_count := s.led_blink_count - j - 1,
      out := s.out ++ ((List.replicate j (led_cmds s.victory true ++ led_cmds s.victory false)).flatten
        ++ led_cmds s.victory true) } := by
  rw [blink_run_add, blink_run_pairs j s hl hc]
  simp only [blink_run]
  rw [blink_on_step]
  · simp
  · show 0 < s.led_blink_count - j
    omega
  · exact hl

set_option maxRecDepth 8000 in
/-- C10, counterexample: from the fresh session `fresh_blink_state`
(`led_blink_count = 20`, `led_state = true`, outcome colour red) the 40th
invocation of `blink_led_callback` already returns `false`; up to and including
it the LED has been driven red 20 times and black only 19 times. -/
theorem blink_session_black_19_times :
    fresh_blink_state.led_blink_count = 20 ∧ fresh_blink_state.led_state = true ∧
    (blink_led_callback (blink_run 39 fresh_blink_state)).2 = false ∧
    ((blink_run 40 fresh_blink_state).out.filter (· = HwCmd.gpio_put LED_R 1)).length = 20 ∧
    ((blink_run 40 fresh_blink_state).out.filter (· = HwCmd.gpio_put LED_R 0)).length = 19 := by
  decide

/-- C10, amended: from every fresh blink session (`led_blink_count = 20`,
`led_state = true`) the first 39 invocations of `blink_led_callback` return
`true` and each drives the status LED once, with the outcome colour on the odd
invocations and with black on the even ones: 19 full on/off pairs followed by a
20th drive with the outcome colour.  The 40th invocation drives nothing,
cancels the timer, releases it, sets `blink_timer_ptr` to `NULL` and returns
`false`. -/
theorem blink_session_20 (s : State) (hc : s.led_blink_count = 20) (hl : s.led_state = true) :
    (∀ k : Nat, k < 39 →
      (blink_led_callback (blink_run k s)).2 = true ∧
      (blink_run (k + 1) s).out
        = (blink_run k s).out ++ led_cmds s.victory (decide (k % 2 = 0))) ∧
    (blink_run 39 s).out = s.out ++
      ((List.replicate 19 (led_cmds s.victory true ++ led_cmds s.victory false)).flatten
        ++ led_cmds s.victory true) ∧
    blink_led_callback (blink_run 39 s) = ({ blink_run 39 s with
      out := (blink_run 39 s).out ++ [.cancel_repeating_timer, .free],
      blink_timer_ptr := false }, false) := by
  refine ⟨fun k hk => ?_, ?_, ?_⟩
  · rcases Nat.even_or_odd' k with ⟨j, rfl | rfl⟩
    · have h1 := blink_run_pairs j s hl (by omega)
      have h2 := blink_run_pairs_lit j s hl (by omega)
      have e1 : (blink_run (2 * j) s).led_state = true := by rw [h1]; exact hl
      have e2 : 0 < (blink_run (2 * j) s).led_blink_count := by
        rw [h1]; show 0 < s.led_blink_count - j; omega
      rw [blink_on_step _ e2 e1]
      simp [h1, h2]
    · have h1 := blink_run_pairs_lit j s hl (by omega)
      have h2 := blink_run_pairs (j + 1) s hl (by push_cast; omega)
      have e1 : (blink_run (2 * j + 1) s).led_state = false := by rw [h1]
      have e2 : 0 < (blink_run (2 * j + 1) s).led_blink_count := by
        rw [h1]; show 0 < s.led_blink_count - j - 1; omega
      have e3 : ¬ ((2 * j + 1) % 2 = 0) := by omega
      rw [blink_off_step _ e2 e1, show 2 * j + 1 + 1 = 2 * (j + 1) from by ring]
      simp [h1, h2, List.replicate_succ', e3]
  · rw [show 39 = 2 * 19 + 1 from rfl, blink_run_pairs_lit 19 s hl (by omega)]
  · have e : (blink_run 39 s).led_blink_count ≤ 0 := by
      rw [show 39 = 2 * 19 + 1 from rfl, blink_run_pairs_lit 19 s hl (by omega)]
      show s.led_blink_count - (19 : Nat) - 1 ≤ 0
      omega
    rw [blink_stop_step _ e]

/-- C10, witness: `blink_session_20` at `fresh_blink_state`. -/
theorem blink_session_20_witness :
    (blink_led_callback (blink_run 38 fresh_blink_state)).2 = true ∧
    (blink_led_callback (blink_run 39 fresh_blink_state)).2 = false :=
  have h := blink_session_20 fresh_blink_state rfl rfl
  ⟨(h.1 38 (by decide)).1, congrArg Prod.snd h.2.2⟩

/-! ## What each event leaves alone -/

theorem filter_ite_nil {α : Type} (p : α → Bool) (c : Prop) [Decidable c] (l : List α)
    (h : l.filter p = []) : (if c then l else []).filter p = [] := by
  split
  · exact h
  · rfl

theorem game_loop_frame (x y r1 r2 : Nat) (s : State) :
    (game_loop x y r1 r2 s).time_us = s.time_us ∧
    (game_loop x y r1 r2 s).joystick_last_press_time = s.joystick_last_press_time ∧
    (game_loop x y r1 r2 s).button_a_pressed = s.button_a_pressed ∧
    (game_loop x y r1 r2 s).button_b_pressed = s.button_b_pressed := by
  cases hgo : s.game_over
  · cases hpa : s.paused
    · cases hpl : s.playing
      · simp [game_loop, hgo, hpa, hpl, set_rgb_led, emit]
      · rw [game_loop_playing x y r1 r2 s hgo hpl hpa]
        simp only [set_rgb_led, update_display, emit, check_victory_nf, check_defeat_nf,
          handle_confirm_nf, read_joystick_nf, and_self]
    · rw [game_loop_paused x y r1 r2 s hgo hpa]
      exact ⟨rfl, rfl, rfl, rfl⟩
  · rw [game_loop_ended x y r1 r2 s hgo]
    exact ⟨rfl, rfl, rfl, rfl⟩

theorem game_loop_pending_alarms (cb : Callback) (hcb : is_debounce cb = true)
    (x y r1 r2 : Nat) (s : State) :
    pending_alarms cb (game_loop x y r1 r2 s) = pending_alarms cb s := by
  have h1 : ∀ d : Nat, decide (Callback.reset_game_callback = cb) = false := by
    intro d; cases cb <;> simp_all [is_debounce]
  have h2 : ∀ b : Nat, decide (Callback.stop_sound b = cb) = false := by
    intro b; cases cb <;> simp_all [is_debounce]
  cases hgo : s.game_over
  · cases hpa : s.paused
    · cases hpl : s.playing
      · simp [game_loop, hgo, hpa, hpl, set_rgb_led, emit, pending_alarms]
      · rw [game_loop_playing x y r1 r2 s hgo hpl hpa]
        simp only [pending_alarms, set_rgb_led, update_display, emit, check_victory_nf,
          check_defeat_nf, handle_confirm_nf, read_joystick_nf, List.filter_append]
        rw [filter_ite_nil, filter_ite_nil, filter_ite_nil] <;> simp [List.filter, h1 0, h2]
    · rw [game_loop_paused x y r1 r2 s hgo hpa]; rfl
  · rw [game_loop_ended x y r1 r2 s hgo]; rfl

theorem run_callback_frame (cb : Callback) (r1 r2 : Nat) (s : State) :
    (run_callback cb r1 r2 s).time_us = s.time_us ∧
    (run_callback cb r1 r2 s).joystick_last_press_time = s.joystick_last_press_time ∧
    (run_callback cb r1 r2 s).alarms = s.alarms ∧
    (cb ≠ .button_a_debounce_callback →
      (run_callback cb r1 r2 s).button_a_pressed = s.button_a_pressed) ∧
    (cb ≠ .button_b_debounce_callback →
      (run_callback cb r1 r2 s).button_b_pressed = s.button_b_pressed) := by
  cases cb <;>
    simp [run_callback, button_a_debounce_callback, button_b_debounce_callback,
      joystick_btn_debounce_callback, reset_game_callback, reset_game_nf, stop_sound, emit]

theorem blink_led_callback_frame (s : State) :
    (blink_led_callback s).1.time_us = s.time_us ∧
    (blink_led_callback s).1.joystick_last_press_time = s.joystick_last_press_time ∧
    (blink_led_callback s).1.alarms = s.alarms ∧
    (blink_led_callback s).1.button_a_pressed = s.button_a_pressed ∧
    (blink_led_callback s).1.button_b_pressed = s.button_b_pressed := by
  by_cases hc : 0 < s.led_blink_count
  · cases hl : s.led_state
    · rw [blink_off_step s hc hl]; exact ⟨rfl, rfl, rfl, rfl, rfl⟩
    · rw [blink_on_step s hc hl]; exact ⟨rfl, rfl, rfl, rfl, rfl⟩
  · rw [blink_stop_step s (by omega)]; exact ⟨rfl, rfl, rfl, rfl, rfl⟩

theorem button_handler_a (events : Nat) (s : State) :
    button_handler BUTTON_A events s =
      if falling events ∧ s.button_a_pressed = false then
        { s with button_a_pressed := true,
                 alarms := s.alarms ++ [{ due_us := s.time_us + 200 * 1000,
                                           cb := .button_a_debounce_callback }] }
      else s := by
  by_cases hf : falling events = true <;> cases hp : s.button_a_pressed <;>
    simp [button_handler, BUTTON_A, BUTTON_B, JOYSTICK_BTN, hf, hp, add_alarm_in_ms]

theorem button_handler_b (events : Nat) (s : State) :
    button_handler BUTTON_B events s =
      if falling events ∧ s.button_b_pressed = false then
        { s with button_b_pressed := true,
                 alarms := s.alarms ++ [{ due_us := s.time_us + 200 * 1000,
                                           cb := .button_b_debounce_callback }] }
      else s := by
  by_cases hf : falling events = true <;> cases hp : s.button_b_pressed <;>
    simp [button_handler, BUTTON_A, BUTTON_B, JOYSTICK_BTN, hf, hp, add_alarm_in_ms]

theorem button_handler_joystick (events : Nat) (s : State) :
    button_handler JOYSTICK_BTN events s =
      if falling events ∧ joystick_accepts s then
        { s with joystick_btn_pressed := true, joystick_last_press_time := time_us_64 s,
                 joystick_irq_enabled := false,
                 alarms := s.alarms ++ [{ due_us := s.time_us + DEBOUNCE_DELAY_MS * 1000,
                                           cb := .joystick_btn_debounce_callback }] }
      else s := by
  by_cases hf : falling events = true <;> cases hp : joystick_accepts s <;>
    simp [button_handler, BUTTON_A, BUTTON_B, JOYSTICK_BTN, hf, hp, add_alarm_in_ms]

theorem button_handler_other (gpio events : Nat) (s : State) (ha : gpio ≠ BUTTON_A)
    (hb : gpio ≠ BUTTON_B) (hj : gpio ≠ JOYSTICK_BTN) : button_handler gpio events s = s := by
  simp [button_handler, ha, hb, hj]

/-! ## Delivery of events -/

theorem filter_eraseIdx_neg {α : Type} (p : α → Bool) (l : List α) (i : Nat) (a : α)
    (hi : l[i]? = some a) (hp : p a = false) : (l.eraseIdx i).filter p = l.filter p := by
  induction l generalizing i with
  | nil => simp at hi
  | cons b l ih =>
    cases i with
    | zero =>
      simp at hi
      subst hi
      simp [List.filter, hp]
    | succ i =>
      simp at hi
      simp [List.eraseIdx, List.filter, ih i hi]

theorem filter_eraseIdx_pos {α : Type} (p : α → Bool) (l : List α) (i : Nat) (a : α)
    (hi : l[i]? = some a) (hp : p a = true) :
    ((l.eraseIdx i).filter p).length + 1 = (l.filter p).length := by
  induction l generalizing i with
  | nil => simp at hi
  | cons b l ih =>
    cases i with
    | zero =>
      simp at hi
      subst hi
      simp [List.filter, hp]
    | succ i =>
      simp at hi
      have := ih i hi
      cases hb : p b <;> simp [List.eraseIdx, List.filter, hb] <;> omega

theorem mem_filter_of_getElem {α : Type} (p : α → Bool) (l : List α) (i : Nat) (a : α)
    (hi : l[i]? = some a) (hp : p a = true) : a ∈ l.filter p := by
  rw [List.mem_filter]
  exact ⟨List.getElem?_mem hi, hp⟩

theorem deliver_time (t : Nat) (e : Event) (s s' : State) (hd : deliver t e s = some s') :
    s.time_us ≤ t ∧ s'.time_us = t := by
  unfold deliver at hd
  split at hd
  · rename_i hle
    refine ⟨hle, ?_⟩
    cases e with
    | tick x y r1 r2 =>
      simp only [Option.some.injEq] at hd
      rw [← hd, (game_loop_frame x y r1 r2 _).1]
    | edge gpio events =>
      simp only [Option.some.injEq] at hd
      rw [← hd]
      by_cases ha : gpio = BUTTON_A
      · rw [ha, button_handler_a]; split <;> rfl
      · by_cases hb : gpio = BUTTON_B
        · rw [hb, button_handler_b]; split <;> rfl
        · by_cases hj : gpio = JOYSTICK_BTN
          · rw [hj, button_handler_joystick]; split <;> rfl
          · rw [button_handler_other gpio events _ ha hb hj]
    | alarm i r1 r2 =>
      simp only [fire_alarm] at hd
      split at hd
      · split at hd
        · simp only [Option.some.injEq] at hd
          rw [← hd, (run_callback_frame _ r1 r2 _).1]
        · simp at hd
      · simp at hd
    | blink =>
      simp only at hd
      split at hd
      · simp only [Option.some.injEq] at hd
        rw [← hd, (blink_led_callback_frame _).1]
      · simp at hd
  · simp at hd

theorem run_time_mono (tr : List (Nat × Event)) (s s' : State) (hr : run tr s = some s') :
    s.time_us ≤ s'.time_us := by
  induction tr generalizing s with
  | nil => simp [run] at hr; rw [hr]
  | cons p rest ih =>
    obtain ⟨t, e⟩ := p
    simp only [run] at hr
    cases hd : deliver t e s with
    | none => simp [hd] at hr
    | some m =>
      simp only [hd, Option.bind] at hr
      have h1 := deliver_time t e s m hd
      have h2 := ih m hr
      omega

theorem is_debounce_of_button (cb : Callback)
    (hcb : cb = .button_a_debounce_callback ∨ cb = .button_b_debounce_callback) :
    is_debounce cb = true := by
  rcases hcb with rfl | rfl <;> rfl

theorem button_handler_armed (cb : Callback)
    (hcb : cb = .button_a_debounce_callback ∨ cb = .button_b_debounce_callback)
    (due gpio events : Nat) (s : State) (hJ : Armed cb due s) :
    Armed cb due (button_handler gpio events s) := by
  by_cases ha : gpio = BUTTON_A
  · rw [ha, button_handler_a]
    rcases hcb with rfl | rfl
    · have : s.button_a_pressed = true := hJ.1
      simp [this, hJ]
    · split
      · refine ⟨hJ.1, ?_⟩
        have := hJ.2
        simp only [pending_alarms] at this ⊢
        simp [List.filter_append, this]
      · exact hJ
  · by_cases hb : gpio = BUTTON_B
    · rw [hb, button_handler_b]
      rcases hcb with rfl | rfl
      · split
        · refine ⟨hJ.1, ?_⟩
          have := hJ.2
          simp only [pending_alarms] at this ⊢
          simp [List.filter_append, this]
        · exact hJ
      · have : s.button_b_pressed = true := hJ.1
        simp [this, hJ]
    · by_cases hj : gpio = JOYSTICK_BTN
      · rw [hj, button_handler_joystick]
        split
        · have h1 := hJ.1
          have h2 := hJ.2
          simp only [pending_alarms] at h2
          rcases hcb with rfl | rfl <;>
            exact ⟨h1, by simp [pending_alarms, List.filter_append, h2]⟩
        · exact hJ
      · rw [button_handler_other gpio events s ha hb hj]
        exact hJ

theorem fire_alarm_armed (cb : Callback)
    (hcb : cb = .button_a_debounce_callback ∨ cb = .button_b_debounce_callback)
    (due i r1 r2 : Nat) (s s' : State) (hJ : Armed cb due s)
    (hd : fire_alarm i r1 r2 s = some s') (ht : s.time_us < due) : Armed cb due s' := by
  simp only [fire_alarm] at hd
  split at hd
  · rename_i a hi
    split at hd
    · rename_i hdue
      simp only [Option.some.injEq] at hd
      have hne : a.cb ≠ cb := by
        intro h
        have hm : a ∈ pending_alarms cb s :=
          mem_filter_of_getElem _ _ i a hi (by simpa using h)
        rw [hJ.2] at hm
        simp at hm
        rw [hm] at hdue
        simp at hdue
        omega
      have hf := run_callback_frame a.cb r1 r2 { s with alarms := s.alarms.eraseIdx i }
      have hal : pending_alarms cb s' = pending_alarms cb s := by
        rw [← hd]
        simp only [pending_alarms, hf.2.2.1]
        exact filter_eraseIdx_neg _ _ i a hi (by simpa using hne)
      refine ⟨?_, by rw [hal]; exact hJ.2⟩
      rw [← hd, ← hJ.1]
      rcases hcb with rfl | rfl
      · exact hf.2.2.2.1 hne
      · exact hf.2.2.2.2 hne
    · simp at hd
  · simp at hd

theorem deliver_armed (cb : Callback)
    (hcb : cb = .button_a_debounce_callback ∨ cb = .button_b_debounce_callback)
    (due t : Nat) (e : Event) (s s' : State) (hJ : Armed cb due s)
    (hd : deliver t e s = some s') (ht : t < due) : Armed cb due s' := by
  have hJ0 : Armed cb due { s with time_us := t } := hJ
  unfold deliver at hd
  split at hd
  · cases e with
    | tick x y r1 r2 =>
      simp only [Option.some.injEq] at hd
      rw [← hd]
      refine ⟨?_, by rw [game_loop_pending_alarms cb (is_debounce_of_button cb hcb)]; exact hJ0.2⟩
      rw [← hJ0.1]
      have hf := game_loop_frame x y r1 r2 { s with time_us := t }
      rcases hcb with rfl | rfl
      · exact hf.2.2.1
      · exact hf.2.2.2
    | edge gpio events =>
      simp only [Option.some.injEq] at hd
      rw [← hd]
      exact button_handler_armed cb hcb due gpio events _ hJ0
    | alarm i r1 r2 =>
      exact fire_alarm_armed cb hcb due i r1 r2 _ s' hJ0 hd ht
    | blink =>
      simp only at hd
      split at hd
      · simp only [Option.some.injEq] at hd
        have hf := blink_led_callback_frame { s with time_us := t }
        rw [← hd]
        refine ⟨?_, ?_⟩
        · rw [← hJ0.1]
          rcases hcb with rfl | rfl
          · exact hf.2.2.2.1
          · exact hf.2.2.2.2
        · simp only [pending_alarms, hf.2.2.1]
          exact hJ0.2
      · simp at hd
  · simp at hd

theorem run_armed (cb : Callback)
    (hcb : cb = .button_a_debounce_callback ∨ cb = .button_b_debounce_callback)
    (due : Nat) (tr : List (Nat × Event)) (s s' : State) (hJ : Armed cb due s)
    (hr : run tr s = some s') (ht : s'.time_us < due) : Armed cb due s' := by
  induction tr generalizing s with
  | nil => simp [run] at hr; rw [← hr]; exact hJ
  | cons p rest ih =>
    obtain ⟨t, e⟩ := p
    simp only [run] at hr
    cases hd : deliver t e s with
    | none => simp [hd] at hr
    | some m =>
      simp only [hd, Option.bind] at hr
      have h1 := deliver_time t e s m hd
      have h2 := run_time_mono rest m s' hr
      exact ih m (deliver_armed cb hcb due t e s m hJ hd (by omega)) hr

/-! ## Consistency of the button flags with the alarm pool -/

theorem run_callback_clears (cb : Callback)
    (hcb : cb = .button_a_debounce_callback ∨ cb = .button_b_debounce_callback)
    (r1 r2 : Nat) (s : State) : suppressed cb (run_callback cb r1 r2 s) = false := by
  rcases hcb with rfl | rfl <;>
    simp [suppressed, run_callback, button_a_debounce_callback, button_b_debounce_callback,
      reset_game_nf]

theorem run_callback_suppressed (cb c : Callback)
    (hcb : cb = .button_a_debounce_callback ∨ cb = .button_b_debounce_callback)
    (hne : c ≠ cb) (r1 r2 : Nat) (s : State) :
    suppressed cb (run_callback c r1 r2 s) = suppressed cb s := by
  have hf := run_callback_frame c r1 r2 s
  rcases hcb with rfl | rfl
  · exact hf.2.2.2.1 hne
  · exact hf.2.2.2.2 hne

theorem button_handler_consistent (gpio events : Nat) (s : State) (hc : Consistent s) :
    Consistent (button_handler gpio events s) := by
  intro cb hcb
  have h0 := hc cb hcb
  by_cases ha : gpio = BUTTON_A
  · rw [ha, button_handler_a]
    split
    · rename_i hacc
      rcases hcb with rfl | rfl
      · simp only [pending, pending_alarms, suppressed, hacc.2] at h0 ⊢
        simp [List.filter_append] at h0 ⊢
        exact h0
      · simp only [pending, pending_alarms, suppressed] at h0 ⊢
        simpa [List.filter_append] using h0
    · exact h0
  · by_cases hb : gpio = BUTTON_B
    · rw [hb, button_handler_b]
      split
      · rename_i hacc
        rcases hcb with rfl | rfl
        · simp only [pending, pending_alarms, suppressed] at h0 ⊢
          simpa [List.filter_append] using h0
        · simp only [pending, pending_alarms, suppressed, hacc.2] at h0 ⊢
          simp [List.filter_append] at h0 ⊢
          exact h0
      · exact h0
    · by_cases hj : gpio = JOYSTICK_BTN
      · rw [hj, button_handler_joystick]
        split
        · rcases hcb with rfl | rfl <;>
          · simp only [pending, pending_alarms, suppressed] at h0 ⊢
            simpa [List.filter_append] using h0
        · exact h0
      · rw [button_handler_other gpio events s ha hb hj]
        exact h0

theorem fire_alarm_consistent (i r1 r2 : Nat) (s s' : State) (hc : Consistent s)
    (hd : fire_alarm i r1 r2 s = some s') : Consistent s' := by
  intro cb hcb
  have h0 := hc cb hcb
  simp only [fire_alarm] at hd
  split at hd
  · rename_i a hi
    split at hd
    · simp only [Option.some.injEq] at hd
      have hf := run_callback_frame a.cb r1 r2 { s with alarms := s.alarms.eraseIdx i }
      by_cases hcba : a.cb = cb
      · have hlen := filter_eraseIdx_pos (fun b : Alarm => decide (b.cb = cb)) s.alarms i a hi
          (by simpa using hcba)
        have hp : pending cb s' = 0 := by
          rw [← hd]
          simp only [pending, pending_alarms, hf.2.2.1]
          simp only [pending, pending_alarms] at h0
          split at h0 <;> omega
        rw [hp, ← hd, hcba, run_callback_clears cb hcb]
        rfl
      · have hal : pending cb s' = pending cb s := by
          rw [← hd]
          simp only [pending, pending_alarms, hf.2.2.1]
          rw [filter_eraseIdx_neg _ _ i a hi (by simpa using hcba)]
        rw [hal, ← hd, run_callback_suppressed cb a.cb hcb hcba]
        exact h0
    · simp at hd
  · simp at hd

theorem deliver_consistent (t : Nat) (e : Event) (s s' : State) (hc : Consistent s)
    (hd : deliver t e s = some s') : Consistent s' := by
  have hc0 : Consistent { s with time_us := t } := hc
  unfold deliver at hd
  split at hd
  · cases e with
    | tick x y r1 r2 =>
      simp only [Option.some.injEq] at hd
      intro cb hcb
      have h0 := hc0 cb hcb
      have hf := game_loop_frame x y r1 r2 { s with time_us := t }
      have hs : suppressed cb s' = suppressed cb { s with time_us := t } := by
        rw [← hd]
        rcases hcb with rfl | rfl
        · exact hf.2.2.1
        · exact hf.2.2.2
      rw [hs, ← h0, ← hd]
      simp only [pending, game_loop_pending_alarms cb (is_debounce_of_button cb hcb)]
    | edge gpio events =>
      simp only [Option.some.injEq] at hd
      rw [← hd]
      exact button_handler_consistent gpio events _ hc0
    | alarm i r1 r2 =>
      exact fire_alarm_consistent i r1 r2 _ s' hc0 hd
    | blink =>
      simp only at hd
      split at hd
      · simp only [Option.some.injEq] at hd
        have hf := blink_led_callback_frame { s with time_us := t }
        intro cb hcb
        have h0 := hc0 cb hcb
        have hs : suppressed cb s' = suppressed cb { s with time_us := t } := by
          rw [← hd]
          rcases hcb with rfl | rfl
          · exact hf.2.2.2.1
          · exact hf.2.2.2.2
        rw [hs, ← h0, ← hd]
        simp only [pending, pending_alarms, hf.2.2.1]
      · simp at hd
  · simp at hd

theorem run_consistent (tr : List (Nat × Event)) (s s' : State) (hc : Consistent s)
    (hr : run tr s = some s') : Consistent s' := by
  induction tr generalizing s with
  | nil => simp [run] at hr; rw [← hr]; exact hc
  | cons p rest ih =>
    obtain ⟨t, e⟩ := p
    simp only [run] at hr
    cases hd : deliver t e s with
    | none => simp [hd] at hr
    | some m =>
      simp only [hd, Option.bind] at hr
      exact ih m (deliver_consistent t e s m hc hd) hr

theorem boot_consistent : Consistent boot := by
  intro cb hcb
  rcases hcb with rfl | rfl <;> rfl

theorem reachable_consistent (s : State) (hs : Reachable s) : Consistent s := by
  obtain ⟨tr, hr⟩ := hs
  exact run_consistent tr boot s boot_consistent hr

/-! ## Debounce of the two push buttons -/

theorem armed_pending (cb : Callback) (due : Nat) (s : State) (h : Armed cb due s) :
    pending cb s = 1 := by
  simp [pending, h.2]

theorem debounce_pair_a (s s1 s2 s3 : State) (t1 t2 ev1 ev2 : Nat) (mid : List (Nat × Event))
    (hs : Reachable s) (hp : s.button_a_pressed = false) (hf : falling ev1 = true)
    (h1 : deliver t1 (.edge BUTTON_A ev1) s = some s1) (hmid : run mid s1 = some s2)
    (h2 : deliver t2 (.edge BUTTON_A ev2) s2 = some s3) (ht : t2 < t1 + 200000) :
    s1 = { s with time_us := t1, button_a_pressed := true,
                  alarms := s.alarms ++ [{ due_us := t1 + 200000,
                                            cb := .button_a_debounce_callback }] } ∧
    pending .button_a_debounce_callback s1 = 1 ∧
    s3 = { s2 with time_us := t2 } ∧
    pending .button_a_debounce_callback s3 = 1 := by
  have hc := reachable_consistent s hs .button_a_debounce_callback (Or.inl rfl)
  simp only [suppressed, hp, pending, pending_alarms] at hc
  have hnil : s.alarms.filter (fun a => decide (a.cb = .button_a_debounce_callback)) = [] :=
    List.length_eq_zero.1 (by simpa using hc)
  have ht1 := deliver_time _ _ _ _ h1
  have ht2 := deliver_time _ _ _ _ h2
  have e1 : s1 = { s with
      time_us := t1, button_a_pressed := true,
      alarms := s.alarms ++ [{ due_us := t1 + 200000, cb := .button_a_debounce_callback }] } := by
    simp only [deliver, ht1.1, if_true, Option.some.injEq] at h1
    rw [← h1, button_handler_a]
    simp [hf, hp]
  have a1 : Armed .button_a_debounce_callback (t1 + 200000) s1 := by
    rw [e1]
    exact ⟨rfl, by simp [pending_alarms, List.filter_append, hnil]⟩
  have a2 : Armed .button_a_debounce_callback (t1 + 200000) s2 :=
    run_armed _ (Or.inl rfl) _ mid s1 s2 a1 hmid (by omega)
  have hp2 : s2.button_a_pressed = true := a2.1
  have e3 : s3 = { s2 with time_us := t2 } := by
    simp only [deliver, ht2.1, if_true, Option.some.injEq] at h2
    rw [← h2, button_handler_a]
    simp [hp2]
  have a3 : Armed .button_a_debounce_callback (t1 + 200000) s3 := by
    rw [e3]; exact a2
  exact ⟨e1, armed_pending _ _ _ a1, e3, armed_pending _ _ _ a3⟩

theorem debounce_pair_b (s s1 s2 s3 : State) (t1 t2 ev1 ev2 : Nat) (mid : List (Nat × Event))
    (hs : Reachable s) (hp : s.button_b_pressed = false) (hf : falling ev1 = true)
    (h1 : deliver t1 (.edge BUTTON_B ev1) s = some s1) (hmid : run mid s1 = some s2)
    (h2 : deliver t2 (.edge BUTTON_B ev2) s2 = some s3) (ht : t2 < t1 + 200000) :
    s1 = { s with time_us := t1, button_b_pressed := true,
                  alarms := s.alarms ++ [{ due_us := t1 + 200000,
                                            cb := .button_b_debounce_callback }] } ∧
    pending .button_b_debounce_callback s1 = 1 ∧
    s3 = { s2 with time_us := t2 } ∧
    pending .button_b_debounce_callback s3 = 1 := by
  have hc := reachable_consistent s hs .button_b_debounce_callback (Or.inr rfl)
  simp only [suppressed, hp, pending, pending_alarms] at hc
  have hnil : s.alarms.filter (fun a => decide (a.cb = .button_b_debounce_callback)) = [] :=
    List.length_eq_zero.1 (by simpa using hc)
  have ht1 := deliver_time _ _ _ _ h1
  have ht2 := deliver_time _ _ _ _ h2
  have e1 : s1 = { s with
      time_us := t1, button_b_pressed := true,
      alarms := s.alarms ++ [{ due_us := t1 + 200000, cb := .button_b_debounce_callback }] } := by
    simp only [deliver, ht1.1, if_true, Option.some.injEq] at h1
    rw [← h1, button_handler_b]
    simp [hf, hp]
  have a1 : Armed .button_b_debounce_callback (t1 + 200000) s1 := by
    rw [e1]
    exact ⟨rfl, by simp [pending_alarms, List.filter_append, hnil]⟩
  have a2 : Armed .button_b_debounce_callback (t1 + 200000) s2 :=
    run_armed _ (Or.inr rfl) _ mid s1 s2 a1 hmid (by omega)
  have hp2 : s2.button_b_pressed = true := a2.1
  have e3 : s3 = { s2 with time_us := t2 } := by
    simp only [deliver, ht2.1, if_true, Option.some.injEq] at h2
    rw [← h2, button_handler_b]
    simp [hp2]
  have a3 : Armed .button_b_debounce_callback (t1 + 200000) s3 := by
    rw [e3]; exact a2
  exact ⟨e1, armed_pending _ _ _ a1, e3, armed_pending _ _ _ a3⟩

/-- C7: for button A and for button B, from every reachable state in which
the button's suppressed flag is clear: a falling edge delivered at time `t1` is
accepted (the flag is set and one 200 ms debounce alarm is armed); whatever
events are delivered afterwards, a second edge on the same button delivered at
a time `t2` less than 200 ms (200 000 microseconds) after `t1` is ignored, for
the alarm has not fired and the flag is still set: `button_handler` changes
nothing and arms nothing, so exactly one debounce alarm of that button is
pending for the pair and its bound action (pause toggle for A, `reset_game` for
B), which only that alarm runs, is executed at most once. -/
theorem button_debounce :
    (∀ (s s1 s2 s3 : State) (t1 t2 ev1 ev2 : Nat) (mid : List (Nat × Event)),
      Reachable s → s.button_a_pressed = false → falling ev1 = true →
      deliver t1 (.edge BUTTON_A ev1) s = some s1 → run mid s1 = some s2 →
      deliver t2 (.edge BUTTON_A ev2) s2 = some s3 → t2 < t1 + 200000 →
        s1 = { s with time_us := t1, button_a_pressed := true,
                      alarms := s.alarms ++ [{ due_us := t1 + 200000,
                                                cb := .button_a_debounce_callback }] } ∧
        pending .button_a_debounce_callback s1 = 1 ∧
        s3 = { s2 with time_us := t2 } ∧
        pending .button_a_debounce_callback s3 = 1) ∧
    (∀ (s s1 s2 s3 : State) (t1 t2 ev1 ev2 : Nat) (mid : List (Nat × Event)),
      Reachable s → s.button_b_pressed = false → falling ev1 = true →
      deliver t1 (.edge BUTTON_B ev1) s = some s1 → run mid s1 = some s2 →
      deliver t2 (.edge BUTTON_B ev2) s2 = some s3 → t2 < t1 + 200000 →
        s1 = { s with time_us := t1, button_b_pressed := true,
                      alarms := s.alarms ++ [{ due_us := t1 + 200000,
                                                cb := .button_b_debounce_callback }] } ∧
        pending .button_b_debounce_callback s1 = 1 ∧
        s3 = { s2 with time_us := t2 } ∧
        pending .button_b_debounce_callback s3 = 1) :=
  ⟨debounce_pair_a, debounce_pair_b⟩

/-- C7, witness: `button_debounce` on a run from `boot`: button A pressed at
1 ms, a tick at 50 ms, button A pressed again at 150 ms. -/
theorem button_debounce_witness :
    pending .button_a_debounce_callback
      (button_handler BUTTON_A 4 { game_loop 2048 2048 1 2
        { button_handler BUTTON_A 4 { boot with time_us := 1000 } with time_us := 50000 }
        with time_us := 150000 }) = 1 :=
  (button_debounce.1 boot _ _ _ 1000 150000 4 4 [(50000, .tick 2048 2048 1 2)]
    ⟨[], rfl⟩ rfl rfl rfl rfl rfl (by decide)).2.2.2

/-! ## Debounce of the joystick button -/

theorem joystick_accepts_gap (s : State) (h64 : s.time_us < 2 ^ 64)
    (hle : s.joystick_last_press_time ≤ s.time_us) (hacc : joystick_accepts s = true) :
    s.joystick_last_press_time + 100000 < s.time_us := by
  simp only [joystick_accepts, sub64, time_us_64, DEBOUNCE_DELAY_MS, decide_eq_true_eq] at hacc
  omega

theorem deliver_last_press (t : Nat) (e : Event) (s s' : State)
    (hd : deliver t e s = some s') (h64 : t < 2 ^ 64) :
    (accepted_press t e s = true →
      s'.joystick_btn_pressed = true ∧ s'.joystick_last_press_time = t) ∧
    (accepted_press t e s = false →
      s'.joystick_last_press_time = s.joystick_last_press_time) := by
  have htime := deliver_time t e s s' hd
  unfold deliver at hd
  simp only [htime.1, if_true] at hd
  cases e with
  | tick x y r1 r2 =>
    simp only [Option.some.injEq] at hd
    simp only [accepted_press, Bool.false_eq_true, false_implies, true_and, true_implies]
    rw [← hd, (game_loop_frame x y r1 r2 _).2.1]
  | edge gpio events =>
    simp only [Option.some.injEq] at hd
    by_cases hj : gpio = JOYSTICK_BTN
    · subst hj
      rw [button_handler_joystick] at hd
      by_cases hc : falling events = true ∧ joystick_accepts { s with time_us := t } = true
      · rw [if_pos hc] at hd
        have hm : t % 2 ^ 64 = t := Nat.mod_eq_of_lt h64
        have hacc : accepted_press t (.edge JOYSTICK_BTN events) s = true := by
          simp only [accepted_press, true_and]
          simpa using hc
        rw [← hd]
        refine ⟨fun _ => ⟨rfl, ?_⟩, fun h => ?_⟩
        · show time_us_64 { s with time_us := t } = t
          simp only [time_us_64, hm]
        · rw [hacc] at h
          cases h
      · rw [if_neg hc] at hd
        have : accepted_press t (.edge JOYSTICK_BTN events) s = false := by
          simp only [accepted_press, true_and]
          simpa using hc
        simp [this, ← hd]
    · have hna : accepted_press t (.edge gpio events) s = false := by
        simp [accepted_press, hj]
      simp only [hna, Bool.false_eq_true, false_implies, true_and, true_implies]
      rw [← hd]
      by_cases ha : gpio = BUTTON_A
      · rw [ha, button_handler_a]; split <;> rfl
      · by_cases hb : gpio = BUTTON_B
        · rw [hb, button_handler_b]; split <;> rfl
        · rw [button_handler_other gpio events _ ha hb hj]
  | alarm i r1 r2 =>
    simp only [accepted_press, Bool.false_eq_true, false_implies, true_and, true_implies]
    simp only [fire_alarm] at hd
    split at hd
    · split at hd
      · simp only [Option.some.injEq] at hd
        rw [← hd, (run_callback_frame _ r1 r2 _).2.1]
      · simp at hd
    · simp at hd
  | blink =>
    simp only [accepted_press, Bool.false_eq_true, false_implies, true_and, true_implies]
    simp only at hd
    split at hd
    · simp only [Option.some.injEq] at hd
      rw [← hd, (blink_led_callback_frame _).2.1]
    · simp at hd

theorem accepted_press_gap (t : Nat) (e : Event) (s : State) (h64 : t < 2 ^ 64)
    (hle : s.joystick_last_press_time ≤ t) (hacc : accepted_press t e s = true) :
    s.joystick_last_press_time + 100000 < t := by
  cases e with
  | edge gpio events =>
    simp only [accepted_press, decide_eq_true_eq] at hacc
    exact joystick_accepts_gap { s with time_us := t } h64 hle hacc.2.2
  | tick x y r1 r2 => simp [accepted_press] at hacc
  | alarm i r1 r2 => simp [accepted_press] at hacc
  | blink => simp [accepted_press] at hacc

/-- After an accepted press, every later accepted press is more than 100 ms
later. -/
theorem accepted_presses_after (tr : List (Nat × Event)) (s : State)
    (h64 : ∀ p ∈ tr, p.1 < 2 ^ 64) (hle : s.joystick_last_press_time ≤ s.time_us) :
    (∀ a ∈ accepted_presses tr s, s.joystick_last_press_time + 100000 < a) ∧
    List.Pairwise (fun a b => a + 100000 < b) (accepted_presses tr s) := by
  induction tr generalizing s with
  | nil => simp [accepted_presses]
  | cons p rest ih =>
    obtain ⟨t, e⟩ := p
    have ht64 : t < 2 ^ 64 := h64 (t, e) (List.mem_cons_self _ _)
    have hrest : ∀ p ∈ rest, p.1 < 2 ^ 64 := fun p hp => h64 p (List.mem_cons_of_mem _ hp)
    simp only [accepted_presses]
    cases hd : deliver t e s with
    | none => simp
    | some m =>
      have htime := deliver_time t e s m hd
      have hlast := deliver_last_press t e s m hd ht64
      cases hacc : accepted_press t e s
      · have hm : m.joystick_last_press_time = s.joystick_last_press_time := hlast.2 hacc
        have := ih m hrest (by omega)
        simpa [hm] using this
      · have hm : m.joystick_last_press_time = t := (hlast.1 hacc).2
        have hgap := accepted_press_gap t e s ht64 (by omega) hacc
        have := ih m hrest (by omega)
        rw [hm] at this
        simp only [if_true, List.singleton_append, List.mem_cons, List.pairwise_cons]
        refine ⟨?_, this.1, this.2⟩
        rintro a (rfl | ha)
        · exact hgap
        · have := this.1 a ha
          omega

theorem accepted_presses_pairwise (tr : List (Nat × Event)) (s : State)
    (h64 : ∀ p ∈ tr, p.1 < 2 ^ 64) :
    List.Pairwise (fun a b => a + 100000 < b) (accepted_presses tr s) := by
  induction tr generalizing s with
  | nil => simp [accepted_presses]
  | cons p rest ih =>
    obtain ⟨t, e⟩ := p
    have ht64 : t < 2 ^ 64 := h64 (t, e) (List.mem_cons_self _ _)
    have hrest : ∀ p ∈ rest, p.1 < 2 ^ 64 := fun p hp => h64 p (List.mem_cons_of_mem _ hp)
    simp only [accepted_presses]
    cases hd : deliver t e s with
    | none => simp
    | some m =>
      have htime := deliver_time t e s m hd
      have hlast := deliver_last_press t e s m hd ht64
      cases hacc : accepted_press t e s
      · simpa using ih m hrest
      · have hm : m.joystick_last_press_time = t := (hlast.1 hacc).2
        have := accepted_presses_after rest m hrest (by omega)
        rw [hm] at this
        simp only [if_true, List.singleton_append, List.pairwise_cons]
        exact this

/-- C8: for the joystick confirm button, in every sequence of events
delivered at non-decreasing times (falling edges of the joystick button
interleaved with anything else), from any state, any two accepted presses have
timestamps more than 100 000 microseconds apart; an accepted press is one that
sets `joystick_btn_pressed` and stores its timestamp in
`joystick_last_press_time`; and an edge whose elapsed time since
`joystick_last_press_time` is at most 100 000 microseconds changes no
state. -/
theorem joystick_debounce :
    (∀ (tr : List (Nat × Event)) (s : State), (∀ p ∈ tr, p.1 < 2 ^ 64) →
      List.Pairwise (fun a b => a + 100000 < b) (accepted_presses tr s)) ∧
    (∀ (t : Nat) (e : Event) (s s' : State), deliver t e s = some s' → t < 2 ^ 64 →
      accepted_press t e s = true →
        s'.joystick_btn_pressed = true ∧ s'.joystick_last_press_time = t) ∧
    (∀ (events : Nat) (s : State),
      sub64 (time_us_64 s) s.joystick_last_press_time ≤ 100000 →
        button_handler JOYSTICK_BTN events s = s) := by
  refine ⟨accepted_presses_pairwise, fun t e s s' hd h64 => (deliver_last_press t e s s' hd h64).1,
    fun events s h => ?_⟩
  rw [button_handler_joystick]
  have : joystick_accepts s = false := by
    simp only [joystick_accepts, DEBOUNCE_DELAY_MS, decide_eq_false_iff_not]
    omega
  simp [this]

/-- C8, witness: `joystick_debounce` on `three_presses` from `boot`: the
presses at 150 ms and 260 ms are accepted, the one at 200 ms is not. -/
theorem joystick_debounce_witness :
    accepted_presses three_presses boot = [150000, 260000] ∧
    List.Pairwise (fun a b => a + 100000 < b) (accepted_presses three_presses boot) :=
  ⟨by decide, joystick_debounce.1 three_presses boot (by decide)⟩

/-! ## Interleavings and the gameplay invariant -/

theorem steps_nil (s : State) : steps [] s = s := rfl

theorem steps_cons (c : Step) (cs : List Step) (s : State) :
    steps (c :: cs) s = steps cs (step c s) := rfl

theorem steps_append (cs ds : List Step) (s : State) :
    steps (cs ++ ds) s = steps ds (steps cs s) := by
  simp [steps, List.foldl_append]

theorem deliver_steps (t : Nat) (e : Event) (s s' : State) (hd : deliver t e s = some s') :
    ∃ cs, steps cs s = s' := by
  unfold deliver at hd
  split at hd
  · cases e with
    | tick x y r1 r2 =>
      simp only [Option.some.injEq] at hd
      exact ⟨[.clock t, .tick x y r1 r2], hd⟩
    | edge gpio events =>
      simp only [Option.some.injEq] at hd
      exact ⟨[.clock t, .edge gpio events], hd⟩
    | alarm i r1 r2 =>
      simp only [fire_alarm] at hd
      split at hd
      · rename_i a hi
        split at hd
        · simp only [Option.some.injEq] at hd
          exact ⟨[.clock t, .drop i, .callback a.cb r1 r2], hd⟩
        · simp at hd
      · simp at hd
    | blink =>
      simp only at hd
      split at hd
      · simp only [Option.some.injEq] at hd
        exact ⟨[.clock t, .blink], hd⟩
      · simp at hd
  · simp at hd

theorem run_steps (tr : List (Nat × Event)) (s s' : State) (hr : run tr s = some s') :
    ∃ cs, steps cs s = s' := by
  induction tr generalizing s with
  | nil => simp [run] at hr; exact ⟨[], hr⟩
  | cons p rest ih =>
    obtain ⟨t, e⟩ := p
    simp only [run] at hr
    cases hd : deliver t e s with
    | none => simp [hd] at hr
    | some m =>
      simp only [hd, Option.bind] at hr
      obtain ⟨cs, hcs⟩ := deliver_steps t e s m hd
      obtain ⟨ds, hds⟩ := ih m hr
      exact ⟨cs ++ ds, by rw [steps_append, hcs, hds]⟩

/-- Every state the timed environment reaches is reached by an interleaving. -/
theorem reachable_interleaved (s : State) (hs : Reachable s) : Interleaved s := by
  obtain ⟨tr, hr⟩ := hs
  exact run_steps tr boot s hr

theorem game_inv_congr (s s' : State) (h : GameInv s)
    (h1 : s'.score = s.score) (h2 : s'.click_count = s.click_count)
    (h3 : s'.game_over = s.game_over) (h4 : s'.victory = s.victory)
    (h5 : s'.target_x = s.target_x) (h6 : s'.target_y = s.target_y) : GameInv s' := by
  unfold GameInv at *
  rw [h1, h2, h3, h4, h5, h6]
  exact h

theorem game_loop_playing_target (x y r1 r2 : Nat) (s : State) (hgo : s.game_over = false)
    (hpl : s.playing = true) (hpa : s.paused = false) :
    (game_loop x y r1 r2 s).target_x =
      (if s.joystick_btn_pressed ∧ hit (read_joystick x y s) then r1 % 124 + 2 else s.target_x) ∧
    (game_loop x y r1 r2 s).target_y =
      (if s.joystick_btn_pressed ∧ hit (read_joystick x y s) then r2 % 60 + 2 else s.target_y) := by
  rw [game_loop_playing x y r1 r2 s hgo hpl hpa]
  simp [set_rgb_led, update_display, emit, check_victory_nf, check_defeat_nf, handle_confirm_nf]
  simp [read_joystick_nf]

theorem game_loop_game_inv (x y r1 r2 : Nat) (s : State) (h : GameInv s) :
    GameInv (game_loop x y r1 r2 s) := by
  cases hgo : s.game_over
  · cases hpa : s.paused
    · cases hpl : s.playing
      · refine game_inv_congr s _ h ?_ ?_ ?_ ?_ ?_ ?_ <;>
          simp [game_loop, hgo, hpa, hpl, set_rgb_led, emit]
      · obtain ⟨hv, hs, hc, hb, htx, hty⟩ := h
        have hb' := hb hgo
        have e1 := game_loop_playing_score x y r1 r2 s hgo hpl hpa
        have e2 := game_loop_playing_click_count x y r1 r2 s hgo hpl hpa
        have e3 := game_loop_playing_game_over x y r1 r2 s hgo hpl hpa
        have e4 := game_loop_playing_victory x y r1 r2 s hgo hpl hpa
        have e5 := game_loop_playing_target x y r1 r2 s hgo hpl hpa
        have e6 := game_loop_playing_click_count_eq x y r1 r2 s hgo hpl hpa
        have e7 : (handle_confirm r1 r2 (read_joystick x y s)).score
            = (game_loop x y r1 r2 s).score := by
          rw [e1]
          simp [handle_confirm_nf]
          simp [read_joystick_nf]
        have hvs : s.victory = false := by
          cases hvv : s.victory
          · rfl
          · rw [hv hvv] at hgo; cases hgo
        rw [e7, ← e6] at e3 e4
        unfold GameInv
        generalize (game_loop x y r1 r2 s).score = sc at *
        generalize (game_loop x y r1 r2 s).click_count = cc at *
        generalize (game_loop x y r1 r2 s).game_over = go at *
        generalize (game_loop x y r1 r2 s).victory = vi at *
        generalize (game_loop x y r1 r2 s).target_x = tx at *
        generalize (game_loop x y r1 r2 s).target_y = ty at *
        have hsc : sc ≤ 25 := by rw [e1]; split <;> omega
        have hcc : cc ≤ 11 := by rw [e2]; split <;> (try split) <;> omega
        have htx' : 2 ≤ tx ∧ tx ≤ 125 := by rw [e5.1]; split <;> omega
        have hty' : 2 ≤ ty ∧ ty ≤ 61 := by rw [e5.2]; split <;> omega
        refine ⟨?_, hsc, hcc, ?_, htx', hty'⟩
        · intro hvt
          rw [e3]
          rw [hvt] at e4
          by_cases h25 : 25 ≤ sc
          · simp [h25]
          · by_cases h10 : 10 < cc
            · simp [h10]
            · simp [h25, h10, hvs] at e4
        · intro hg
          rw [e3] at hg
          simp at hg
          omega
    · rw [game_loop_paused x y r1 r2 s hgo hpa]
      exact game_inv_congr s _ h rfl rfl rfl rfl rfl rfl
  · rw [game_loop_ended x y r1 r2 s hgo]
    exact game_inv_congr s _ h rfl rfl rfl rfl rfl rfl

theorem button_handler_game (gpio events : Nat) (s : State) :
    (button_handler gpio events s).score = s.score ∧
    (button_handler gpio events s).click_count = s.click_count ∧
    (button_handler gpio events s).game_over = s.game_over ∧
    (button_handler gpio events s).victory = s.victory ∧
    (button_handler gpio events s).target_x = s.target_x ∧
    (button_handler gpio events s).target_y = s.target_y ∧
    (button_handler gpio events s).paused = s.paused ∧
    (button_handler gpio events s).playing = s.playing := by
  by_cases ha : gpio = BUTTON_A
  · rw [ha, button_handler_a]; split <;> simp
  · by_cases hb : gpio = BUTTON_B
    · rw [hb, button_handler_b]; split <;> simp
    · by_cases hj : gpio = JOYSTICK_BTN
      · rw [hj, button_handler_joystick]; split <;> simp
      · rw [button_handler_other gpio events s ha hb hj]; simp

theorem blink_led_callback_game (s : State) :
    (blink_led_callback s).1.score = s.score ∧
    (blink_led_callback s).1.click_count = s.click_count ∧
    (blink_led_callback s).1.game_over = s.game_over ∧
    (blink_led_callback s).1.victory = s.victory ∧
    (blink_led_callback s).1.target_x = s.target_x ∧
    (blink_led_callback s).1.target_y = s.target_y ∧
    (blink_led_callback s).1.paused = s.paused ∧
    (blink_led_callback s).1.playing = s.playing ∧
    (blink_led_callback s).1.joystick_btn_pressed = s.joystick_btn_pressed := by
  by_cases hc : 0 < s.led_blink_count
  · cases hl : s.led_state
    · rw [blink_off_step s hc hl]; simp
    · rw [blink_on_step s hc hl]; simp
  · rw [blink_stop_step s (by omega)]; simp

theorem run_callback_game_inv (cb : Callback) (r1 r2 : Nat) (s : State) (h : GameInv s) :
    GameInv (run_callback cb r1 r2 s) := by
  cases cb with
  | button_a_debounce_callback => exact game_inv_congr s _ h rfl rfl rfl rfl rfl rfl
  | joystick_btn_debounce_callback => exact game_inv_congr s _ h rfl rfl rfl rfl rfl rfl
  | stop_sound b => exact game_inv_congr s _ h rfl rfl rfl rfl rfl rfl
  | button_b_debounce_callback =>
    simp only [run_callback, button_b_debounce_callback, reset_game_nf, GameInv]
    simp
    omega
  | reset_game_callback =>
    simp only [run_callback, reset_game_callback, reset_game_nf, GameInv]
    simp
    omega

theorem step_game_inv (c : Step) (s : State) (h : GameInv s) : GameInv (step c s) := by
  cases c with
  | tick x y r1 r2 => exact game_loop_game_inv x y r1 r2 s h
  | edge gpio events =>
    have hf := button_handler_game gpio events s
    exact game_inv_congr s _ h hf.1 hf.2.1 hf.2.2.1 hf.2.2.2.1 hf.2.2.2.2.1 hf.2.2.2.2.2.1
  | callback cb r1 r2 => exact run_callback_game_inv cb r1 r2 s h
  | blink =>
    have hf := blink_led_callback_game s
    exact game_inv_congr s _ h hf.1 hf.2.1 hf.2.2.1 hf.2.2.2.1 hf.2.2.2.2.1 hf.2.2.2.2.2.1
  | clock t => exact game_inv_congr s _ h rfl rfl rfl rfl rfl rfl
  | drop i => exact game_inv_congr s _ h rfl rfl rfl rfl rfl rfl

theorem steps_game_inv (cs : List Step) (s : State) (h : GameInv s) : GameInv (steps cs s) := by
  induction cs generalizing s with
  | nil => exact h
  | cons c cs ih => rw [steps_cons]; exact ih _ (step_game_inv c s h)

theorem boot_game_inv : GameInv boot := by
  simp [GameInv, boot]

theorem interleaved_game_inv (s : State) (hs : Interleaved s) : GameInv s := by
  obtain ⟨cs, rfl⟩ := hs
  exact steps_game_inv cs boot boot_game_inv

/-! ## Invariants of the reachable states -/

theorem hits_state_interleaved (n : Nat) : Interleaved (hits_state n) := ⟨_, rfl⟩

theorem misses_state_interleaved (n : Nat) : Interleaved (misses_state n) := ⟨_, rfl⟩

/-- C11: in every state reached from `boot` by any interleaving of
`game_loop` ticks, `button_handler` edges, alarm callbacks (the debounce
callbacks, `reset_game_callback`, `stop_sound`) and blink callbacks, at any
times, `victory` is true only if `game_over` is true. -/
theorem victory_only_when_ended (s : State) (hs : Interleaved s) (hv : s.victory = true) :
    s.game_over = true :=
  (interleaved_game_inv s hs).1 hv

set_option maxRecDepth 100000 in
/-- C11, witness: `victory_only_when_ended` at the state after 25 hits in a
row. -/
theorem victory_only_when_ended_witness : (hits_state 25).game_over = true :=
  victory_only_when_ended (hits_state 25) (hits_state_interleaved 25) (by decide)

/-- C15: in no state reached from `boot` by any interleaving does a
`game_loop` tick enter both the defeat block (`click_count > 10`) and the
victory block (`score >= 25`); a pending confirm that hits sets the click
counter to 0 before the two tests. -/
theorem branches_exclusive (s : State) (hs : Interleaved s) (x y r1 r2 : Nat) :
    ¬ (takes_defeat_branch x y r1 r2 s = true ∧ takes_victory_branch x y r1 r2 s = true) ∧
    (s.joystick_btn_pressed = true → hit (read_joystick x y s) = true →
      (handle_confirm r1 r2 (read_joystick x y s)).click_count = 0) := by
  have hinv := interleaved_game_inv s hs
  refine ⟨?_, fun hp hh => ?_⟩
  · rintro ⟨hd, hvb⟩
    simp only [takes_defeat_branch, takes_victory_branch, Bool.and_eq_true, Bool.not_eq_true',
      decide_eq_true_eq] at hd hvb
    obtain ⟨⟨hgo, _⟩, h10⟩ := hd
    have h25 := hvb.2
    have hb := hinv.2.2.2.1 hgo
    simp only [check_defeat_nf, handle_confirm_nf] at h10 h25
    simp only [show (read_joystick x y s).joystick_btn_pressed = s.joystick_btn_pressed from rfl,
      show (read_joystick x y s).score = s.score from rfl,
      show (read_joystick x y s).click_count = s.click_count from rfl] at h10 h25
    by_cases hc : s.joystick_btn_pressed = true ∧ hit (read_joystick x y s) = true
    · simp [hc.1, hc.2] at h10
    · rw [if_neg hc] at h25
      omega
  · simp [handle_confirm_nf, hh]
    simp [read_joystick_nf, hp]

set_option maxRecDepth 100000 in
/-- C15, witness: `branches_exclusive` at the state after ten misses in a row
and an eleventh press, for a tick that misses again: it enters the defeat block
and not the victory block. -/
theorem branches_exclusive_witness :
    takes_defeat_branch 0 0 0 0 eleventh_press_state = true ∧
    ¬ (takes_defeat_branch 0 0 0 0 eleventh_press_state = true ∧
      takes_victory_branch 0 0 0 0 eleventh_press_state = true) :=
  ⟨by decide, (branches_exclusive eleventh_press_state ⟨_, rfl⟩ 0 0 0 0).1⟩

/-- C16: in every state reached from `boot` by any interleaving of ticks,
button events, alarm callbacks and resets, `score <= 25` and
`click_count <= 11`, so that incrementing either `uint8_t` counter does not
wrap; and whenever `game_over` is false, `score <= 24` and
`click_count <= 10`. -/
theorem counters_bounded (s : State) (hs : Interleaved s) :
    s.score ≤ 25 ∧ s.click_count ≤ 11 ∧
    u8 (s.score + 1) = s.score + 1 ∧ u8 (s.click_count + 1) = s.click_count + 1 ∧
    (s.game_over = false → s.score ≤ 24 ∧ s.click_count ≤ 10) := by
  have hinv := interleaved_game_inv s hs
  refine ⟨hinv.2.1, hinv.2.2.1, ?_, ?_, hinv.2.2.2.1⟩
  · have := hinv.2.1
    simp only [u8]; omega
  · have := hinv.2.2.1
    simp only [u8]; omega

set_option maxRecDepth 100000 in
/-- C16, witness: `counters_bounded` at the state after eleven misses in a
row, where the click counter is at its bound. -/
theorem counters_bounded_witness :
    (misses_state 11).click_count = 11 ∧ (misses_state 11).click_count ≤ 11 ∧
    (misses_state 11).score ≤ 25 :=
  have h := counters_bounded (misses_state 11) (misses_state_interleaved 11)
  ⟨by decide, h.2.1, h.1⟩

/-! ## The target -/

theorem filterMap_ite_all {α β : Type} (l : List α) (c : α → Prop) [DecidablePred c]
    (f : α → β) (h : ∀ a ∈ l, c a) :
    l.filterMap (fun a => if c a then some (f a) else none) = l.map f := by
  induction l with
  | nil => rfl
  | cons a l ih =>
    have ha : c a := h a (List.mem_cons_self _ _)
    simp only [List.filterMap_cons, ha, if_true, List.map_cons]
    rw [ih (fun b hb => h b (List.mem_cons_of_mem _ hb))]

theorem draw_marker_inside (tx ty : Nat) (hx : 2 ≤ tx ∧ tx ≤ 125) (hy : 2 ≤ ty ∧ ty ≤ 61) :
    draw_marker tx ty =
      ([-1, 0, 1] : List Int).flatMap fun dx =>
        ([-1, 0, 1] : List Int).map fun dy => .ssd1306_pixel (tx + dx) (ty + dy) true := by
  have key : ∀ dx : Int, -1 ≤ dx → dx ≤ 1 →
      (([-1, 0, 1] : List Int).filterMap fun dy =>
        if (tx : Int) + dx ≥ 1 ∧ (tx : Int) + dx < (WIDTH : Nat) - 1 ∧ (ty : Int) + dy ≥ 1 ∧
            (ty : Int) + dy < (HEIGHT : Nat) - 1 then
          some (HwCmd.ssd1306_pixel (tx + dx) (ty + dy) true)
        else none) =
      ([-1, 0, 1] : List Int).map fun dy => HwCmd.ssd1306_pixel (tx + dx) (ty + dy) true := by
    intro dx h1 h2
    apply filterMap_ite_all
    intro dy hdy
    simp only [List.mem_cons, List.mem_singleton, List.not_mem_nil, or_false] at hdy
    simp only [WIDTH, HEIGHT]
    rcases hdy with rfl | rfl | rfl <;> omega
  unfold draw_marker
  simp only [List.flatMap_cons, List.flatMap_nil]
  rw [key (-1) (by omega) (by omega), key 0 (by omega) (by omega), key 1 (by omega) (by omega)]

theorem hit_at_target (s : State) (hx : s.target_x ≤ 125) (hy : s.target_y ≤ 61) :
    hit (read_joystick (32 * s.target_x) (4095 - 64 * s.target_y) s) = true := by
  have e1 : cursor_x_of (32 * s.target_x) = s.target_x := by
    rw [cursor_x_of_eq _ (by omega)]; omega
  have e2 : cursor_y_of (4095 - 64 * s.target_y) = s.target_y := by
    rw [cursor_y_of_eq _ (by omega)]; omega
  simp [hit, read_joystick_nf, e1, e2]

/-- C18: in every state reached from `boot` by any interleaving, `target_x`
is in [2, 125] and `target_y` in [2, 61].  Consequently some pair of 12-bit
samples makes `read_joystick` put the cursor where the hit test succeeds, and
all nine pixels of the target's 3x3 marker pass the test
`x >= 1 && x < WIDTH-1 && y >= 1 && y < HEIGHT-1` of `update_display`, which
draws the whole marker. -/
theorem target_in_bounds (s : State) (hs : Interleaved s) :
    (2 ≤ s.target_x ∧ s.target_x ≤ 125) ∧ (2 ≤ s.target_y ∧ s.target_y ≤ 61) ∧
    (∃ x y : Nat, x ≤ 4095 ∧ y ≤ 4095 ∧ hit (read_joystick x y s) = true) ∧
    (∀ dx ∈ ([-1, 0, 1] : List Int), ∀ dy ∈ ([-1, 0, 1] : List Int),
      (1 : Int) ≤ s.target_x + dx ∧ (s.target_x : Int) + dx < WIDTH - 1 ∧
      (1 : Int) ≤ s.target_y + dy ∧ (s.target_y : Int) + dy < HEIGHT - 1) ∧
    draw_marker s.target_x s.target_y =
      ([-1, 0, 1] : List Int).flatMap fun dx =>
        ([-1, 0, 1] : List Int).map fun dy =>
          .ssd1306_pixel (s.target_x + dx) (s.target_y + dy) true := by
  have hinv := interleaved_game_inv s hs
  have hx := hinv.2.2.2.2.1
  have hy := hinv.2.2.2.2.2
  refine ⟨hx, hy, ⟨32 * s.target_x, 4095 - 64 * s.target_y, by omega, by omega,
    hit_at_target s hx.2 hy.2⟩, ?_, draw_marker_inside _ _ hx hy⟩
  intro dx hdx dy hdy
  simp only [List.mem_cons, List.mem_singleton, List.not_mem_nil, or_false] at hdx hdy
  simp only [WIDTH, HEIGHT]
  rcases hdx with rfl | rfl | rfl <;> rcases hdy with rfl | rfl | rfl <;> omega

set_option maxRecDepth 100000 in
/-- C18, witness: `target_in_bounds` at the state after three hits in a row,
where `rand` has been called six times. -/
theorem target_in_bounds_witness :
    (hits_state 3).score = 3 ∧
    (2 ≤ (hits_state 3).target_x ∧ (hits_state 3).target_x ≤ 125) ∧
    (2 ≤ (hits_state 3).target_y ∧ (hits_state 3).target_y ≤ 61) :=
  have h := target_in_bounds (hits_state 3) (hits_state_interleaved 3)
  ⟨by decide, h.1, h.2.1⟩

/-! ## The LED matrix -/

theorem matrix_colors_min (p : Nat) : matrix_colors p = matrix_colors (min p 25) := by
  unfold matrix_colors
  apply List.map_congr_left
  intro i hi
  have : i < 25 := List.mem_range.1 hi
  have e : (i < p ∧ i < 25) ↔ (i < min p 25 ∧ i < 25) := by omega
  simp only [e]

theorem matrix_colors_le (q : Nat) (hq : q ≤ 25) :
    matrix_colors q = List.replicate q 0xFF0000 ++ List.replicate (25 - q) 0 := by
  interval_cases q <;> rfl

theorem matrix_colors_eq (p : Nat) :
    matrix_colors p = List.replicate (min p 25) 0xFF0000 ++ List.replicate (25 - min p 25) 0 := by
  rw [matrix_colors_min, matrix_colors_le _ (by omega)]

/-- C17: for every progress value `p` (in particular 0..255),
`update_led_matrix(p)` pushes exactly 25 words, one per cell and each the
cell's colour shifted left by 8 bits; the first `min(p, 25)` cells have the lit
colour `0xFF0000` and the remaining ones are 0.  In particular, from every
state reached by an interleaving, the call after a hit lights exactly `score`
cells (the new score), `update_led_matrix(25)` lights all 25 and
`update_led_matrix(0)` lights none. -/
theorem update_led_matrix_cells (p : Nat) (s : State) :
    matrix_colors p = List.replicate (min p 25) 0xFF0000 ++ List.replicate (25 - min p 25) 0 ∧
    (matrix_colors p).length = 25 ∧
    (update_led_matrix p s).out = s.out ++
      (matrix_colors p).map (fun c => HwCmd.pio_sm_put_blocking ((c <<< 8) % 2 ^ 32)) ∧
    (update_led_matrix p s).out = s.out ++
      (List.replicate (min p 25) (HwCmd.pio_sm_put_blocking 0xFF000000)
        ++ List.replicate (25 - min p 25) (HwCmd.pio_sm_put_blocking 0)) ∧
    (∀ (u : State) (x y r1 r2 : Nat), Interleaved u → u.game_over = false →
      u.joystick_btn_pressed = true → hit (read_joystick x y u) = true →
        (handle_confirm r1 r2 (read_joystick x y u)).score = u.score + 1 ∧
        (handle_confirm r1 r2 (read_joystick x y u)).out = u.out ++
          (sound_cmds BUZZER1 2000
            ++ matrix_cmds (handle_confirm r1 r2 (read_joystick x y u)).score) ∧
        matrix_colors (handle_confirm r1 r2 (read_joystick x y u)).score =
          List.replicate (handle_confirm r1 r2 (read_joystick x y u)).score 0xFF0000
            ++ List.replicate (25 - (handle_confirm r1 r2 (read_joystick x y u)).score) 0) ∧
    matrix_colors 25 = List.replicate 25 0xFF0000 ∧
    matrix_colors 0 = List.replicate 25 0 := by
  refine ⟨matrix_colors_eq p, by simp [matrix_colors], rfl, ?_, ?_, rfl, rfl⟩
  · show s.out ++ (matrix_colors p).map _ = _
    rw [matrix_colors_eq p]
    simp
  · intro u x y r1 r2 hu hgo hp hh
    have hb := (interleaved_game_inv u hu).2.2.2.1 hgo
    have e1 : (handle_confirm r1 r2 (read_joystick x y u)).score = u.score + 1 := by
      simp [handle_confirm_nf, hh]
      simp [read_joystick_nf, hp]
      omega
    refine ⟨e1, ?_, ?_⟩
    · rw [e1]
      simp [handle_confirm_nf, hh]
      simp [read_joystick_nf, hp]
      have : (u.score + 1) % 256 = u.score + 1 := by omega
      rw [this]
    · rw [e1, matrix_colors_le _ (by omega)]

/-! ## Termination of the blink session -/

/-- C20: for a blink session started with `led_blink_count = n >= 1` and
`led_state = true`, successive invocations of `blink_led_callback` return
`true` exactly `2n - 1` times and `false` on the next one.  The LED commands of
the session are `n - 1` on/off pairs followed by the outcome colour, the last
invocation only cancels and releases the timer, so the last status-LED command
is the lit one, which differs from black. -/
theorem blink_session_terminates (n : Nat) (s : State) (hn : 1 ≤ n)
    (hc : s.led_blink_count = n) (hl : s.led_state = true) :
    (∀ k : Nat, k < 2 * n - 1 → (blink_led_callback (blink_run k s)).2 = true) ∧
    (blink_led_callback (blink_run (2 * n - 1) s)).2 = false ∧
    (blink_run (2 * n - 1) s).out = s.out ++
      ((List.replicate (n - 1) (led_cmds s.victory true ++ led_cmds s.victory false)).flatten
        ++ led_cmds s.victory true) ∧
    (blink_led_callback (blink_run (2 * n - 1) s)).1.out =
      (blink_run (2 * n - 1) s).out ++ [.cancel_repeating_timer, .free] ∧
    led_cmds s.victory true ≠ led_cmds s.victory false := by
  have hlast : blink_run (2 * n - 1) s = blink_run (2 * (n - 1) + 1) s := by
    congr 1; omega
  have h39 := blink_run_pairs_lit (n - 1) s hl (by omega)
  have e : (blink_run (2 * n - 1) s).led_blink_count ≤ 0 := by
    rw [hlast, h39]
    show s.led_blink_count - ((n - 1 : Nat) : Int) - 1 ≤ 0
    omega
  refine ⟨fun k hk => ?_, ?_, ?_, ?_, ?_⟩
  · rcases Nat.even_or_odd' k with ⟨j, rfl | rfl⟩
    · have h1 := blink_run_pairs j s hl (by omega)
      have e1 : (blink_run (2 * j) s).led_state = true := by rw [h1]; exact hl
      have e2 : 0 < (blink_run (2 * j) s).led_blink_count := by
        rw [h1]; show 0 < s.led_blink_count - j; omega
      rw [blink_on_step _ e2 e1]
    · have h1 := blink_run_pairs_lit j s hl (by omega)
      have e1 : (blink_run (2 * j + 1) s).led_state = false := by rw [h1]
      have e2 : 0 < (blink_run (2 * j + 1) s).led_blink_count := by
        rw [h1]; show 0 < s.led_blink_count - j - 1; omega
      rw [blink_off_step _ e2 e1]
  · rw [blink_stop_step _ e]
  · rw [hlast, h39]
  · rw [blink_stop_step _ e]
  · cases s.victory <;> decide

/-- C20, witness: `blink_session_terminates` at `fresh_blink_state`, where
`n = 20`: the 39th invocation returns `true`, the 40th `false`. -/
theorem blink_session_terminates_witness :
    (blink_led_callback (blink_run 38 fresh_blink_state)).2 = true ∧
    (blink_led_callback (blink_run 39 fresh_blink_state)).2 = false :=
  have h := blink_session_terminates 20 fresh_blink_state (by decide) rfl rfl
  ⟨h.1 38 (by decide), h.2.1⟩

/-! ## Eleven misses in a row -/

theorem game_loop_phase (x y r1 r2 : Nat) (s : State) :
    (game_loop x y r1 r2 s).paused = s.paused ∧ (game_loop x y r1 r2 s).playing = s.playing := by
  cases hgo : s.game_over
  · cases hpa : s.paused
    · cases hpl : s.playing
      · simp [game_loop, hgo, hpa, hpl, set_rgb_led, emit]
      · rw [game_loop_playing x y r1 r2 s hgo hpl hpa]
        simp only [set_rgb_led, update_display, emit, check_victory_nf, check_defeat_nf,
          handle_confirm_nf, read_joystick_nf, hpa, hpl, and_self]
    · rw [game_loop_paused x y r1 r2 s hgo hpa]
      simp [hpa]
  · rw [game_loop_ended x y r1 r2 s hgo]
    simp

theorem confirm_ticks_nil (s : State) : confirm_ticks [] s = s := rfl

theorem confirm_ticks_cons (i : TickInput) (inps : List TickInput) (s : State) :
    confirm_ticks (i :: inps) s = confirm_ticks inps
      (game_loop i.x_sample i.y_sample i.r1 i.r2 { s with joystick_btn_pressed := true }) := rfl

theorem confirm_ticks_append (as bs : List TickInput) (s : State) :
    confirm_ticks (as ++ bs) s = confirm_ticks bs (confirm_ticks as s) := by
  simp [confirm_ticks, List.foldl_append]

/-- A tick with a pending confirm that misses, from a playing state. -/
theorem miss_tick (x y r1 r2 : Nat) (s : State) (hgo : s.game_over = false)
    (hpl : s.playing = true) (hpa : s.paused = false) (hsc : s.score ≤ 24)
    (hcc : s.click_count ≤ 10)
    (hm : ¬ (|((cursor_x_of x : Nat) : Int) - s.target_x| < 3 ∧
      |((cursor_y_of y : Nat) : Int) - s.target_y| < 3)) :
    (game_loop x y r1 r2 { s with joystick_btn_pressed := true }).score = s.score ∧
    (game_loop x y r1 r2 { s with joystick_btn_pressed := true }).click_count
      = s.click_count + 1 ∧
    (game_loop x y r1 r2 { s with joystick_btn_pressed := true }).target_x = s.target_x ∧
    (game_loop x y r1 r2 { s with joystick_btn_pressed := true }).target_y = s.target_y ∧
    (game_loop x y r1 r2 { s with joystick_btn_pressed := true }).game_over
      = decide (10 ≤ s.click_count) ∧
    (game_loop x y r1 r2 { s with joystick_btn_pressed := true }).victory
      = (if 10 ≤ s.click_count then false else s.victory) := by
  generalize hs' : ({ s with joystick_btn_pressed := true } : State) = s'
  have g1 : s'.game_over = false := by rw [← hs']; exact hgo
  have g2 : s'.playing = true := by rw [← hs']; exact hpl
  have g3 : s'.paused = false := by rw [← hs']; exact hpa
  have g4 : s'.joystick_btn_pressed = true := by rw [← hs']
  have g5 : s'.score = s.score := by rw [← hs']
  have g6 : s'.click_count = s.click_count := by rw [← hs']
  have g7 : s'.target_x = s.target_x := by rw [← hs']
  have g8 : s'.target_y = s.target_y := by rw [← hs']
  have g9 : s'.victory = s.victory := by rw [← hs']
  have hh : hit (read_joystick x y s') = false := by
    rw [Bool.eq_false_iff]
    intro h
    have h' := (hit_iff _).1 h
    simp only [read_joystick_nf, g7, g8] at h'
    exact hm h'
  have e1 := game_loop_playing_score x y r1 r2 s' g1 g2 g3
  have e2 := game_loop_playing_click_count x y r1 r2 s' g1 g2 g3
  have e3 := game_loop_playing_game_over x y r1 r2 s' g1 g2 g3
  have e4 := game_loop_playing_victory x y r1 r2 s' g1 g2 g3
  have e5 := game_loop_playing_target x y r1 r2 s' g1 g2 g3
  have e6 := game_loop_playing_click_count_eq x y r1 r2 s' g1 g2 g3
  have e7 : (handle_confirm r1 r2 (read_joystick x y s')).score = s.score := by
    simp [handle_confirm_nf, hh]
    simp [read_joystick_nf, g5]
  rw [hh] at e1 e2 e5
  simp only [Bool.false_eq_true, and_false, if_false, if_true, g4, g5, g6, g7, g8] at e1 e2 e5
  have hmod : (s.click_count + 1) % 256 = s.click_count + 1 := by omega
  rw [hmod] at e2
  rw [← e6, e2, e7] at e3 e4
  rw [g9] at e4
  refine ⟨e1, e2, e5.1, e5.2, ?_, ?_⟩
  · rw [e3]
    have : ¬ 25 ≤ s.score := by omega
    simp [this]
    omega
  · rw [e4]
    have : ¬ 25 ≤ s.score := by omega
    simp only [this, if_false]
    by_cases h10 : 10 ≤ s.click_count
    · have : 10 < s.click_count + 1 := by omega
      simp [h10, this]
    · have : ¬ 10 < s.click_count + 1 := by omega
      simp [h10, this]

/-- Misses in a row while the click counter stays at most 10. -/
theorem miss_ticks (inps : List TickInput) (s : State) (hgo : s.game_over = false)
    (hpl : s.playing = true) (hpa : s.paused = false) (hsc : s.score ≤ 24)
    (hcc : s.click_count + inps.length ≤ 10)
    (hm : ∀ i ∈ inps, ¬ (|((cursor_x_of i.x_sample : Nat) : Int) - s.target_x| < 3 ∧
      |((cursor_y_of i.y_sample : Nat) : Int) - s.target_y| < 3)) :
    (confirm_ticks inps s).game_over = false ∧ (confirm_ticks inps s).playing = true ∧
    (confirm_ticks inps s).paused = false ∧ (confirm_ticks inps s).score = s.score ∧
    (confirm_ticks inps s).click_count = s.click_count + inps.length ∧
    (confirm_ticks inps s).target_x = s.target_x ∧
    (confirm_ticks inps s).target_y = s.target_y := by
  induction inps generalizing s with
  | nil => simp [confirm_ticks_nil, hgo, hpl, hpa]
  | cons i inps ih =>
    simp only [List.length_cons] at hcc
    have h1 := miss_tick i.x_sample i.y_sample i.r1 i.r2 s hgo hpl hpa hsc (by omega)
      (hm i (List.mem_cons_self _ _))
    have h2 := game_loop_phase i.x_sample i.y_sample i.r1 i.r2
      { s with joystick_btn_pressed := true }
    obtain ⟨a1, a2, a3, a4, a5, _⟩ := h1
    have hgo' : (game_loop i.x_sample i.y_sample i.r1 i.r2
        { s with joystick_btn_pressed := true }).game_over = false := by
      rw [a5]; simp; omega
    have := ih _ hgo' (by rw [h2.2]; exact hpl) (by rw [h2.1]; exact hpa) (by rw [a1]; exact hsc)
      (by rw [a2]; omega)
      (by rw [a3, a4]; exact fun j hj => hm j (List.mem_cons_of_mem _ hj))
    rw [confirm_ticks_cons]
    rw [a1, a2, a3, a4] at this
    simp only [List.length_cons]
    refine ⟨this.1, this.2.1, this.2.2.1, this.2.2.2.1, ?_, this.2.2.2.2.2.1, this.2.2.2.2.2.2⟩
    rw [this.2.2.2.2.1]
    omega

/-- C12: starting from score 0 and click counter 0 in a playing state (not
paused, not game over), for every sequence of 11 consecutive ticks in each of
which a confirm is pending and the sampled cursor is not within 3 units of the
target on both axes: after each of the first 10 ticks `game_over` is still
false and the click counter equals the number of ticks so far, and after the
11th tick `game_over` is true and `victory` is false. -/
theorem eleven_misses (s : State) (inps : List TickInput)
    (hsc : s.score = 0) (hcc : s.click_count = 0) (hpa : s.paused = false)
    (hgo : s.game_over = false) (hpl : s.playing = true) (hlen : inps.length = 11)
    (hm : ∀ i ∈ inps,
      ¬ (|((read_joystick i.x_sample i.y_sample s).cursor_x : Int) - s.target_x| < 3 ∧
        |((read_joystick i.x_sample i.y_sample s).cursor_y : Int) - s.target_y| < 3)) :
    (∀ k : Nat, k ≤ 10 →
      (confirm_ticks (inps.take k) s).game_over = false ∧
      (confirm_ticks (inps.take k) s).click_count = k) ∧
    (confirm_ticks inps s).game_over = true ∧ (confirm_ticks inps s).victory = false := by
  have hm' : ∀ i ∈ inps, ¬ (|((cursor_x_of i.x_sample : Nat) : Int) - s.target_x| < 3 ∧
      |((cursor_y_of i.y_sample : Nat) : Int) - s.target_y| < 3) := hm
  have hpre : ∀ k : Nat, k ≤ 10 →
      (confirm_ticks (inps.take k) s).game_over = false ∧
      (confirm_ticks (inps.take k) s).playing = true ∧
      (confirm_ticks (inps.take k) s).paused = false ∧
      (confirm_ticks (inps.take k) s).score = s.score ∧
      (confirm_ticks (inps.take k) s).click_count = s.click_count + k ∧
      (confirm_ticks (inps.take k) s).target_x = s.target_x ∧
      (confirm_ticks (inps.take k) s).target_y = s.target_y := by
    intro k hk
    have hl : (inps.take k).length = k := by rw [List.length_take]; omega
    have := miss_ticks (inps.take k) s hgo hpl hpa (by omega) (by rw [hl]; omega)
      (fun i hi => hm' i (List.mem_of_mem_take hi))
    rw [hl] at this
    exact this
  refine ⟨fun k hk => ⟨(hpre k hk).1, by rw [(hpre k hk).2.2.2.2.1, hcc]; omega⟩, ?_⟩
  obtain ⟨g, pl, pa, sc, cc, tx, ty⟩ := hpre 10 (le_refl _)
  have hsplit : inps = inps.take 10 ++ inps.drop 10 := (List.take_append_drop 10 inps).symm
  have hdl : (inps.drop 10).length = 1 := by rw [List.length_drop]; omega
  obtain ⟨i, hi⟩ := List.length_eq_one.1 hdl
  have himem : i ∈ inps := by
    rw [hsplit, hi]; simp
  rw [hsplit, confirm_ticks_append, hi, confirm_ticks_cons, confirm_ticks_nil]
  have h := miss_tick i.x_sample i.y_sample i.r1 i.r2 (confirm_ticks (inps.take 10) s) g pl pa
    (by rw [sc, hsc]; omega) (by rw [cc, hcc]) (by rw [tx, ty]; exact hm' i himem)
  rw [h.2.2.2.2.1, h.2.2.2.2.2, cc, hcc]
  simp

/-- C12, witness: `eleven_misses` at `boot`, with the cursor in a corner on
every tick. -/
theorem eleven_misses_witness :
    (confirm_ticks (eleven_corner_ticks.take 10) boot).click_count = 10 ∧
    (confirm_ticks eleven_corner_ticks boot).game_over = true ∧
    (confirm_ticks eleven_corner_ticks boot).victory = false :=
  have h := eleven_misses boot eleven_corner_ticks rfl rfl rfl rfl rfl rfl (by decide)
  ⟨(h.1 10 (le_refl _)).2, h.2.1, h.2.2⟩

/-! ## A press accepted while paused or ended -/

theorem game_loop_no_confirm (x y r1 r2 : Nat) (s : State)
    (hp : s.joystick_btn_pressed = false) :
    (game_loop x y r1 r2 s).joystick_btn_pressed = false ∧
    (game_loop x y r1 r2 s).score = s.score ∧
    (game_loop x y r1 r2 s).click_count = s.click_count := by
  cases hgo : s.game_over
  · cases hpa : s.paused
    · cases hpl : s.playing
      · simp [game_loop, hgo, hpa, hpl, set_rgb_led, emit, hp]
      · refine ⟨game_loop_playing_pending x y r1 r2 s hgo hpl hpa, ?_, ?_⟩
        · rw [game_loop_playing_score x y r1 r2 s hgo hpl hpa]; simp [hp]
        · rw [game_loop_playing_click_count x y r1 r2 s hgo hpl hpa]; simp [hp]
    · rw [game_loop_paused x y r1 r2 s hgo hpa]
      exact ⟨hp, rfl, rfl⟩
  · rw [game_loop_ended x y r1 r2 s hgo]
    exact ⟨hp, rfl, rfl⟩

theorem ticks_no_confirm (inps : List TickInput) (s : State)
    (hp : s.joystick_btn_pressed = false) :
    (ticks inps s).joystick_btn_pressed = false ∧ (ticks inps s).score = s.score ∧
    (ticks inps s).click_count = s.click_count := by
  induction inps generalizing s with
  | nil => exact ⟨hp, rfl, rfl⟩
  | cons i inps ih =>
    have h := game_loop_no_confirm i.x_sample i.y_sample i.r1 i.r2 s hp
    have h' := ih _ h.1
    rw [ticks_cons]
    exact ⟨h'.1, by rw [h'.2.1, h.2.1], by rw [h'.2.2, h.2.2]⟩

/-- While paused or ended, ticks change nothing but the command stream. -/
theorem ticks_idle (inps : List TickInput) (s : State)
    (h : s.paused = true ∨ s.game_over = true) :
    ∃ cmds, ticks inps s = { s with out := s.out ++ cmds } := by
  by_cases hgo : s.game_over = true
  · exact ⟨_, ticks_ended inps s hgo⟩
  · have hgo' : s.game_over = false := by simpa using hgo
    have hpa : s.paused = true := by
      rcases h with h | h
      · exact h
      · exact absurd h hgo
    exact ⟨_, ticks_paused inps s hgo' hpa⟩

theorem button_handler_pending (gpio events : Nat) (s : State)
    (hp : s.joystick_btn_pressed = true) :
    (button_handler gpio events s).joystick_btn_pressed = true := by
  by_cases ha : gpio = BUTTON_A
  · rw [ha, button_handler_a]; split <;> simp [hp]
  · by_cases hb : gpio = BUTTON_B
    · rw [hb, button_handler_b]; split <;> simp [hp]
    · by_cases hj : gpio = JOYSTICK_BTN
      · rw [hj, button_handler_joystick]; split <;> simp [hp]
      · rw [button_handler_other gpio events s ha hb hj]; exact hp

/-- While the game is paused or over, a step that is neither a pause toggle,
nor a reset, nor the debounce alarm of the joystick button leaves the phase,
the counters and a pending confirm as they are. -/
theorem step_idle (c : Step) (s : State) (hq : keeps_idle c = true)
    (h : s.paused = true ∨ s.game_over = true) (hp : s.joystick_btn_pressed = true) :
    (step c s).paused = s.paused ∧ (step c s).game_over = s.game_over ∧
    (step c s).score = s.score ∧ (step c s).click_count = s.click_count ∧
    (step c s).joystick_btn_pressed = true := by
  cases c with
  | tick x y r1 r2 =>
    obtain ⟨cmds, hc⟩ := ticks_idle [⟨x, y, r1, r2⟩] s h
    have hc' : game_loop x y r1 r2 s = { s with out := s.out ++ cmds } := hc
    show (game_loop x y r1 r2 s).paused = s.paused ∧
      (game_loop x y r1 r2 s).game_over = s.game_over ∧
      (game_loop x y r1 r2 s).score = s.score ∧
      (game_loop x y r1 r2 s).click_count = s.click_count ∧
      (game_loop x y r1 r2 s).joystick_btn_pressed = true
    rw [hc']
    exact ⟨rfl, rfl, rfl, rfl, hp⟩
  | edge gpio events =>
    have hf := button_handler_game gpio events s
    exact ⟨hf.2.2.2.2.2.2.1, hf.2.2.1, hf.1, hf.2.1, button_handler_pending gpio events s hp⟩
  | callback cb r1 r2 =>
    cases cb with
    | stop_sound b => exact ⟨rfl, rfl, rfl, rfl, hp⟩
    | button_a_debounce_callback => simp [keeps_idle] at hq
    | button_b_debounce_callback => simp [keeps_idle] at hq
    | joystick_btn_debounce_callback => simp [keeps_idle] at hq
    | reset_game_callback => simp [keeps_idle] at hq
  | blink =>
    have hf := blink_led_callback_game s
    exact ⟨hf.2.2.2.2.2.2.1, hf.2.2.1, hf.1, hf.2.1, by
      show (blink_led_callback s).1.joystick_btn_pressed = true
      rw [hf.2.2.2.2.2.2.2.2]; exact hp⟩
  | clock t => exact ⟨rfl, rfl, rfl, rfl, hp⟩
  | drop i => exact ⟨rfl, rfl, rfl, rfl, hp⟩

theorem steps_idle (cs : List Step) (s : State) (hq : cs.all keeps_idle = true)
    (h : s.paused = true ∨ s.game_over = true) (hp : s.joystick_btn_pressed = true) :
    (steps cs s).paused = s.paused ∧ (steps cs s).game_over = s.game_over ∧
    (steps cs s).score = s.score ∧ (steps cs s).click_count = s.click_count ∧
    (steps cs s).joystick_btn_pressed = true := by
  induction cs generalizing s with
  | nil => exact ⟨rfl, rfl, rfl, rfl, hp⟩
  | cons c cs ih =>
    rw [List.all_cons, Bool.and_eq_true] at hq
    have h1 := step_idle c s hq.1 h hp
    have h2 := ih (step c s) hq.2 (by rw [h1.1, h1.2.1]; exact h) h1.2.2.2.2
    rw [steps_cons]
    exact ⟨by rw [h2.1, h1.1], by rw [h2.2.1, h1.2.1], by rw [h2.2.2.1, h1.2.2.1],
      by rw [h2.2.2.2.1, h1.2.2.2.1], h2.2.2.2.2⟩

set_option maxRecDepth 100000 in
/-- C19, counterexample: in the timed run `paused_press_run` from `boot` the
joystick button is pressed, and the press accepted, while the game is paused;
the tick that follows leaves it pending.  The pause ends at 800 ms, 50 ms
after the press and before its debounce alarm, and the next tick counts the
press: as a click when the cursor is in a corner, as a hit when it is on the
target.  The debounce alarm of the press is still pending then. -/
theorem press_counted_after_early_resume :
    (run pause_run boot).map (fun s => (s.paused, s.game_over, s.joystick_btn_pressed))
      = some (true, false, false) ∧
    (run paused_press_run boot).map
      (fun s => (s.paused, s.joystick_btn_pressed, s.click_count, s.score))
      = some (true, true, 0, 0) ∧
    (run (early_resume_run 0 0) boot).map
      (fun s => (s.paused, s.click_count, s.score, s.alarms))
      = some (false, 1, 0, [{ due_us := 850000, cb := .joystick_btn_debounce_callback }]) ∧
    (run (early_resume_run 2048 2048) boot).map
      (fun s => (s.paused, s.click_count, s.score, s.alarms.head?))
      = some (false, 0, 1, some { due_us := 850000, cb := .joystick_btn_debounce_callback }) := by
  decide

/-- C19, amended: `joystick_btn_debounce_callback` clears the pending confirm
flag in every state.  Hence, when a confirm press is accepted while the game
is paused or over and neither the pause toggle nor a reset runs before the
100 ms debounce alarm of the press, the steps in between (ticks, edges,
`stop_sound`, blink callbacks) leave the game paused or over, the press pending
and the counters as they were, the alarm discards the press, and no later tick
counts it: after the pause toggle the score and the click counter stay those
held at the press, after a reset they stay 0. -/
theorem pending_confirm_discarded (s : State) (events r1 r2 : Nat)
    (mid : List Step) (later : List TickInput) (hidle : s.paused = true ∨ s.game_over = true)
    (hf : falling events = true) (hacc : joystick_accepts s = true)
    (hmid : mid.all keeps_idle = true) :
    (∀ u : State, (joystick_btn_debounce_callback u).joystick_btn_pressed = false) ∧
    (button_handler JOYSTICK_BTN events s).joystick_btn_pressed = true ∧
    ((steps mid (button_handler JOYSTICK_BTN events s)).joystick_btn_pressed = true ∧
      (steps mid (button_handler JOYSTICK_BTN events s)).paused = s.paused ∧
      (steps mid (button_handler JOYSTICK_BTN events s)).game_over = s.game_over ∧
      (steps mid (button_handler JOYSTICK_BTN events s)).score = s.score ∧
      (steps mid (button_handler JOYSTICK_BTN events s)).click_count = s.click_count) ∧
    (discard_press events mid s).joystick_btn_pressed = false ∧
    ((ticks later (button_a_debounce_callback (discard_press events mid s))).score = s.score ∧
      (ticks later (button_a_debounce_callback (discard_press events mid s))).click_count
        = s.click_count) ∧
    ((ticks later (reset_game r1 r2 (discard_press events mid s))).score = 0 ∧
      (ticks later (reset_game r1 r2 (discard_press events mid s))).click_count = 0) := by
  have hb : button_handler JOYSTICK_BTN events s = { s with
      joystick_btn_pressed := true, joystick_last_press_time := time_us_64 s,
      joystick_irq_enabled := false,
      alarms := s.alarms ++ [{ due_us := s.time_us + DEBOUNCE_DELAY_MS * 1000,
                                cb := .joystick_btn_debounce_callback }] } := by
    rw [button_handler_joystick]; simp [hf, hacc]
  have hm := steps_idle mid (button_handler JOYSTICK_BTN events s) hmid
    (by rw [hb]; exact hidle) (by rw [hb])
  have e1 : (button_handler JOYSTICK_BTN events s).paused = s.paused := by rw [hb]
  have e2 : (button_handler JOYSTICK_BTN events s).game_over = s.game_over := by rw [hb]
  have e3 : (button_handler JOYSTICK_BTN events s).score = s.score := by rw [hb]
  have e4 : (button_handler JOYSTICK_BTN events s).click_count = s.click_count := by rw [hb]
  have hd : (discard_press events mid s).joystick_btn_pressed = false := rfl
  have hds : (discard_press events mid s).score = s.score := by
    show (steps mid (button_handler JOYSTICK_BTN events s)).score = s.score
    rw [hm.2.2.1, e3]
  have hdc : (discard_press events mid s).click_count = s.click_count := by
    show (steps mid (button_handler JOYSTICK_BTN events s)).click_count = s.click_count
    rw [hm.2.2.2.1, e4]
  refine ⟨fun u => rfl, by rw [hb], ?_, hd, ?_, ?_⟩
  · exact ⟨hm.2.2.2.2, by rw [hm.1, e1], by rw [hm.2.1, e2], by rw [hm.2.2.1, e3],
      by rw [hm.2.2.2.1, e4]⟩
  · have h := ticks_no_confirm later (button_a_debounce_callback (discard_press events mid s)) hd
    exact ⟨by rw [h.2.1]; exact hds, by rw [h.2.2]; exact hdc⟩
  · have h := ticks_no_confirm later (reset_game r1 r2 (discard_press events mid s))
      (by rw [reset_game_nf]; exact hd)
    exact ⟨by rw [h.2.1, reset_game_nf], by rw [h.2.2, reset_game_nf]⟩

/-- C19, witness: `pending_confirm_discarded` at `paused_late_state`: a press
during the pause, the steps of `idle_steps`, the debounce alarm, the pause
toggle and two more ticks leave the click counter at 2. -/
theorem pending_confirm_discarded_witness :
    (ticks [⟨0, 0, 0, 0⟩, ⟨9, 9, 9, 9⟩] (button_a_debounce_callback
      (discard_press 4 idle_steps paused_late_state))).click_count = 2 ∧
    (steps idle_steps
      (button_handler JOYSTICK_BTN 4 paused_late_state)).joystick_btn_pressed = true :=
  have h := pending_confirm_discarded paused_late_state 4 0 0 idle_steps
    [⟨0, 0, 0, 0⟩, ⟨9, 9, 9, 9⟩] (Or.inl rfl) (by decide) (by decide) (by decide)
  ⟨h.2.2.2.2.1.2, h.2.2.1.1⟩

/-! ## The auto-reset after a manual reset -/

/-- Every playing tick ends by issuing the live frame and the green LED,
whether or not it has entered the defeat or the victory block. -/
theorem game_loop_playing_out (x y r1 r2 : Nat) (s : State) (hgo : s.game_over = false)
    (hpl : s.playing = true) (hpa : s.paused = false) :
    (game_loop x y r1 r2 s).out =
      (check_victory (check_defeat (handle_confirm r1 r2 (read_joystick x y s)))).out ++
        (live_frame (game_loop x y r1 r2 s) ++ rgb_cmds 0 1 0) := by
  rw [game_loop_playing x y r1 r2 s hgo hpl hpa]
  simp [set_rgb_led, update_display, emit, live_frame, rgb_cmds]

set_option maxRecDepth 100000 in
/-- C14, the code at the failing input: from `eleventh_press_state` (ten
misses and an eleventh press pending) the tick with the cursor in a corner
enters the defeat block and ends the game, and after the defeat screen it still
issues the live frame and sets the status LED to green. -/
theorem transition_tick_draws_live_frame :
    eleventh_press_state.game_over = false ∧
    takes_defeat_branch 0 0 0 0 eleventh_press_state = true ∧
    (game_loop 0 0 0 0 eleventh_press_state).game_over = true ∧
    (game_loop 0 0 0 0 eleventh_press_state).victory = false ∧
    (game_loop 0 0 0 0 eleventh_press_state).out =
      eleventh_press_state.out ++
        ((defeat_screen ++ sound_cmds BUZZER2 3000 ++ [.add_repeating_timer_ms 250]) ++
          (live_frame (game_loop 0 0 0 0 eleventh_press_state) ++ rgb_cmds 0 1 0)) := by
  decide

/-! ## The confirm tick and the defeat tick in the reachable states -/

/-- C1: in every state reached from `boot` by any interleaving of ticks,
edges and callbacks, with `game_over` false, `playing` true, `paused` false
and a confirm pending, one `game_loop` tick does the following.  If the
sampled cursor is within 3 units of the target on both axes, the score
increases by exactly 1 and the click counter becomes 0; otherwise the click
counter increases by exactly 1 and the score is unchanged.  In both cases the
pending confirm flag is cleared. -/
theorem confirm_tick (x y r1 r2 : Nat) (s : State) (hs : Interleaved s)
    (hgo : s.game_over = false) (hpl : s.playing = true) (hpa : s.paused = false)
    (hbtn : s.joystick_btn_pressed = true) :
    ((|((read_joystick x y s).cursor_x : Int) - s.target_x| < 3 ∧
      |((read_joystick x y s).cursor_y : Int) - s.target_y| < 3) →
        (game_loop x y r1 r2 s).score = s.score + 1 ∧
        (game_loop x y r1 r2 s).click_count = 0) ∧
    (¬ (|((read_joystick x y s).cursor_x : Int) - s.target_x| < 3 ∧
      |((read_joystick x y s).cursor_y : Int) - s.target_y| < 3) →
        (game_loop x y r1 r2 s).click_count = s.click_count + 1 ∧
        (game_loop x y r1 r2 s).score = s.score) ∧
    (game_loop x y r1 r2 s).joystick_btn_pressed = false := by
  have hb := (interleaved_game_inv s hs).2.2.2.1 hgo
  have h := confirm_tick_below_255 x y r1 r2 s hgo hpl hpa hbtn
  exact ⟨fun hh => ⟨(h.1 hh).1 (by omega), (h.1 hh).2⟩,
    fun hh => ⟨(h.2.1 hh).1 (by omega), (h.2.1 hh).2⟩, h.2.2⟩

/-- C1, witness: `confirm_tick` at `first_press_state`, the state after the
first accepted press, with the joystick centred on the target: the score goes
from 0 to 1. -/
theorem confirm_tick_witness :
    first_press_state.score = 0 ∧
    (game_loop 2048 2048 5 6 first_press_state).score = first_press_state.score + 1 ∧
    (game_loop 2048 2048 5 6 first_press_state).click_count = 0 ∧
    (game_loop 2048 2048 5 6 first_press_state).joystick_btn_pressed = false :=
  have h := confirm_tick 2048 2048 5 6 first_press_state ⟨_, rfl⟩ (by decide) (by decide)
    (by decide) (by decide)
  ⟨by decide, (h.1 (by decide)).1, (h.1 (by decide)).2, h.2.2⟩

/-- After confirm handling from a state with the score below 25, a click
counter above 10 leaves the score below 25: a hit sets the click counter to
0. -/
theorem handle_confirm_defeat_score (x y r1 r2 : Nat) (s : State) (hsc : s.score ≤ 24)
    (h10 : 10 < (handle_confirm r1 r2 (read_joystick x y s)).click_count) :
    (handle_confirm r1 r2 (read_joystick x y s)).score < 25 := by
  simp only [handle_confirm_nf] at h10 ⊢
  simp only [show (read_joystick x y s).joystick_btn_pressed = s.joystick_btn_pressed from rfl,
    show (read_joystick x y s).score = s.score from rfl,
    show (read_joystick x y s).click_count = s.click_count from rfl] at h10 ⊢
  by_cases hc : s.joystick_btn_pressed = true ∧ hit (read_joystick x y s) = true
  · simp [hc.1, hc.2] at h10
  · rw [if_neg hc]
    omega

/-- C2: in every state reached from `boot` by any interleaving of ticks,
edges and callbacks, a playing tick (`game_over` false, `playing` true,
`paused` false) in which the click counter is above 10 after confirm handling
ends with `game_over` true and `victory` false; and no playing tick ends with
the click counter above 10 and `game_over` false. -/
theorem defeat_same_tick (x y r1 r2 : Nat) (s : State) (hs : Interleaved s)
    (hgo : s.game_over = false) (hpl : s.playing = true) (hpa : s.paused = false) :
    (10 < (handle_confirm r1 r2 (read_joystick x y s)).click_count →
      (game_loop x y r1 r2 s).game_over = true ∧ (game_loop x y r1 r2 s).victory = false) ∧
    ¬ (10 < (game_loop x y r1 r2 s).click_count ∧ (game_loop x y r1 r2 s).game_over = false) := by
  have hb := (interleaved_game_inv s hs).2.2.2.1 hgo
  have h := defeat_tick_cases x y r1 r2 s hgo hpl hpa
  exact ⟨fun h10 => ⟨(h.1 h10).1,
    (h.1 h10).2.1 (handle_confirm_defeat_score x y r1 r2 s hb.1 h10)⟩, h.2⟩

set_option maxRecDepth 100000 in
/-- C2, witness: `defeat_same_tick` at the state after ten misses in a row and
an eleventh accepted press, for a tick with the cursor in a corner. -/
theorem defeat_same_tick_witness :
    (game_loop 0 0 0 0 eleventh_press_state).game_over = true ∧
    (game_loop 0 0 0 0 eleventh_press_state).victory = false :=
  (defeat_same_tick 0 0 0 0 eleventh_press_state ⟨_, rfl⟩ (by decide) (by decide)
    (by decide)).1 (by decide)

end Blink
